import Mathlib

/-!
# SmartLendingChainCode: a shallow embedding and its properties

Source: `src/Chaincode/SmartLendingChainCode.go`.

Conventions of the embedding.

* Go `int` values are `Int`. The code only compares and copies them, so the
  64-bit range plays no part except in `Atoi`, which clamps.
* Go strings are `String`; `utf8.RuneCountInString` is the number of
  characters (strings are taken to be well-formed UTF-8).
* `float64` and `float32` values are kept exactly: a finite value is a sign
  and an integer number of units of the smallest subnormal (`2^-1074`, resp.
  `2^-149`). Comparison is exact; `float32` addition rounds to nearest, ties
  to even.
* `math/rand` is an explicit stream of draws, threaded through the calls.
* The ledger stub is an explicit record: world state plus what the peer
  reports (transaction id, timestamp, caller metadata, whether a read or a
  write fails).
* A byte slice produced by `json.Marshal` is kept symbolically as the record
  it encodes.
* An index out of range (too few arguments) is a Go panic: the function
  yields `none`.
-/

set_option exponentiation.threshold 2048

namespace SmartLending

/-! ## Numbers -/

/-- A binary64 value. `fin neg mag` is the finite value `± mag * 2^-1074`. -/
inductive Float64 where
  | nan
  | inf (neg : Bool)
  | fin (neg : Bool) (mag : Nat)
deriving DecidableEq, Repr

/-- A binary32 value. `fin neg mag` is the finite value `± mag * 2^-149`. -/
inductive Float32 where
  | nan
  | inf (neg : Bool)
  | fin (neg : Bool) (mag : Nat)
deriving DecidableEq, Repr

/-- Signed integer number of units of a finite value. -/
def signedUnits (neg : Bool) (mag : Nat) : Int :=
  if neg then -(mag : Int) else (mag : Int)

/-- The float64 constant `m / 2^e` (for `e ≤ 1074`). -/
def Float64.ofDyadic (m e : Nat) : Float64 := .fin false (m * 2 ^ (1074 - e))

/-- The float64 constant `n`. -/
def Float64.ofNat (n : Nat) : Float64 := Float64.ofDyadic n 0

/-- The IEEE comparison `a < b` on float64: false as soon as one side is NaN. -/
def Float64.lt : Float64 → Float64 → Bool
  | .nan, _ => false
  | _, .nan => false
  | .inf s, .inf t => s && !t
  | .inf s, .fin _ _ => s
  | .fin _ _, .inf t => !t
  | .fin s a, .fin t b => decide (signedUnits s a < signedUnits t b)

/-- The IEEE comparison `a <= b` on float64: false as soon as one side is NaN. -/
def Float64.le : Float64 → Float64 → Bool
  | .nan, _ => false
  | _, .nan => false
  | .inf s, .inf t => s || !t
  | .inf s, .fin _ _ => s
  | .fin _ _, .inf t => !t
  | .fin s a, .fin t b => decide (signedUnits s a ≤ signedUnits t b)

/-- Whether a float64 is neither NaN nor an infinity. -/
def Float64.isFinite : Float64 → Bool
  | .fin _ _ => true
  | _ => false

/-- The float32 constant `m / 2^e` (for `e ≤ 149`). -/
def Float32.ofDyadic (m e : Nat) : Float32 := .fin false (m * 2 ^ (149 - e))

/-- Whether a float32 is neither NaN nor an infinity. -/
def Float32.isFinite : Float32 → Bool
  | .fin _ _ => true
  | _ => false

/-- The exact rational value of a finite float32. -/
def Float32.toRat : Float32 → Option ℚ
  | .fin neg mag => some ((signedUnits neg mag : ℚ) / 2 ^ 149)
  | _ => none

/-- Least shift `s` at or above the given one with `a / 2^s < 2^24`, within the fuel. -/
def roundShift : Nat → Nat → Nat → Nat
  | 0, _, s => s
  | fuel + 1, a, s => if a / 2 ^ s < 2 ^ 24 then s else roundShift fuel a (s + 1)

/-- Round a positive magnitude (in units of `2^-149`) to a 24-bit significand,
to nearest, ties to even; a result beyond the largest finite value is an
infinity. -/
def round32 (neg : Bool) (a : Nat) : Float32 :=
  let s := roundShift 400 a 0
  let q := a / 2 ^ s
  let r := a % 2 ^ s
  let q :=
    if 2 * r < 2 ^ s then q
    else if 2 * r > 2 ^ s then q + 1
    else if q % 2 = 0 then q else q + 1
  if q * 2 ^ s < 2 ^ 277 then .fin neg (q * 2 ^ s) else .inf neg

/-- IEEE binary32 addition, round to nearest even. -/
def Float32.add : Float32 → Float32 → Float32
  | .nan, _ => .nan
  | _, .nan => .nan
  | .inf s, .inf t => if s = t then .inf s else .nan
  | .inf s, .fin _ _ => .inf s
  | .fin _ _, .inf t => .inf t
  | .fin s a, .fin t b =>
    let x : Int := signedUnits s a + signedUnits t b
    if x = 0 then .fin (s && t) 0 else round32 (decide (x < 0)) x.natAbs

/-- The count of runes of `utf8.RuneCountInString`. -/
def RuneCountInString (s : String) : Int := (s.length : Int)

/-- The function `strconv.Atoi`: value and whether an error is reported. A
syntax error yields 0, a value outside int64 yields the nearest bound. -/
def Atoi (s : String) : Int × Bool :=
  match s.toList with
  | [] => (0, true)
  | c :: cs =>
    let neg := decide (c = '-')
    let ds := if c = '-' ∨ c = '+' then cs else c :: cs
    if ds.isEmpty || !(ds.all Char.isDigit) then (0, true)
    else
      let un : Nat := ds.foldl (fun acc d => acc * 10 + (d.toNat - 48)) 0
      if neg then
        if un > 2 ^ 63 then (-(2 ^ 63 : Int), true) else (-(un : Int), false)
      else
        if un ≥ 2 ^ 63 then ((2 ^ 63 : Int) - 1, true) else ((un : Int), false)

/-! ## Constants -/

def STATE_APPLIED : Int := 0
def STATE_QUOTATIONS_RECEIVED : Int := 1
def STATE_BID_ACCEPTED : Int := 2
def STATE_BID_REJECTED : Int := 3

def LENDER_ACCEPT_APPLICATION : Int := 1
def LENDER_REJECT_APPLICATION : Int := 0

/-! ## Models -/

structure TransactionMetadata where
  ApplicationState : Int
  TransactionId : String
  TransactionTimestamp : String
  CallerMetadata : List Nat
deriving DecidableEq, Repr

structure BiddingDetails where
  ApplicationNumber : String
  BiddingNumber : Int
  LenderId : Int
  SanctionedAmount : Float64
  InterestType : String
  InterestRate : Float32
  ApplicationAcceptStatus : Int
  RejectionReason : String
  IsWinningBid : Bool
deriving DecidableEq, Repr

structure LoanApplication where
  ApplicationNumber : String
  Make : String
  Model : String
  LoanAmount : Float64
  SSN : String
  Age : Int
  MonthlyIncome : Float64
  CreditScore : Int
  Status : Int
  Transactions : List TransactionMetadata
  Quotations : List BiddingDetails
deriving DecidableEq, Repr

structure EvaluationParams where
  ApplicationNumber : String
  LoanAmount : Float64
  SSN : String
  Age : Int
  MonthlyIncome : Float64
  CreditScore : Int
deriving DecidableEq, Repr

/-- The zero value of `TransactionMetadata` (`var metadata TransactionMetadata`). -/
def TransactionMetadata.zero : TransactionMetadata :=
  { ApplicationState := 0, TransactionId := "", TransactionTimestamp := "",
    CallerMetadata := [] }

/-- The zero value of `BiddingDetails` (`var bidDetails BiddingDetails`). -/
def BiddingDetails.zero : BiddingDetails :=
  { ApplicationNumber := "", BiddingNumber := 0, LenderId := 0,
    SanctionedAmount := .fin false 0, InterestType := "",
    InterestRate := .fin false 0, ApplicationAcceptStatus := 0,
    RejectionReason := "", IsWinningBid := false }

/-- The zero value of `LoanApplication` (`var applicationDetails LoanApplication`). -/
def LoanApplication.zero : LoanApplication :=
  { ApplicationNumber := "", Make := "", Model := "", LoanAmount := .fin false 0,
    SSN := "", Age := 0, MonthlyIncome := .fin false 0, CreditScore := 0,
    Status := 0, Transactions := [], Quotations := [] }

/-! ## The random source -/

/-- The global source of `math/rand`: the raw draws still to come. -/
structure RandSource where
  draws : Nat → Nat

/-- The call `rand.Intn(n)`: a number in `[0, n)` and the advanced source. -/
def RandSource.Intn (rng : RandSource) (n : Nat) : Int × RandSource :=
  (((rng.draws 0 % n : Nat) : Int), { draws := fun i => rng.draws (i + 1) })

/-- The function `GenerateBiddingNumber` (source lines 493-500): one draw of
`rand.Intn(100000)`. -/
def GenerateBiddingNumber (rng : RandSource) : Int × RandSource :=
  rng.Intn 100000

/-! ## The lenders

Float constants: `Float32.ofDyadic 5 0` is `5.0`, `Float32.ofDyadic 1 2` is
`0.25`, `Float32.ofDyadic 1 1` is `0.50`; `Float64.ofNat 1000` is
`1000.00`. -/

/-- The function `GetQuoteFromLender1` (source lines 257-314). -/
def GetQuoteFromLender1 (rng : RandSource) (evaluationParams : EvaluationParams) :
    BiddingDetails × RandSource :=
  let bidDetails : BiddingDetails := BiddingDetails.zero
  let bidDetails := { bidDetails with ApplicationNumber := evaluationParams.ApplicationNumber }
  if evaluationParams.CreditScore < 300 then
    ({ bidDetails with
        ApplicationAcceptStatus := LENDER_REJECT_APPLICATION
        RejectionReason := "Not meeting credit score requirements" }, rng)
  else if evaluationParams.Age < 18 then
    ({ bidDetails with
        ApplicationAcceptStatus := LENDER_REJECT_APPLICATION
        RejectionReason := "Not meeting age requirements" }, rng)
  else if RuneCountInString evaluationParams.SSN ≠ 7 then
    ({ bidDetails with
        ApplicationAcceptStatus := LENDER_REJECT_APPLICATION
        RejectionReason := "Invalid SSN" }, rng)
  else if Float64.lt evaluationParams.MonthlyIncome (Float64.ofNat 1000) then
    ({ bidDetails with
        ApplicationAcceptStatus := LENDER_REJECT_APPLICATION
        RejectionReason := "Not meeting monthly income requirements" }, rng)
  else
    let drawn := GenerateBiddingNumber rng
    let baseRate : Float32 := Float32.ofDyadic 5 0
    let delta : Float32 := Float32.ofDyadic 0 0
    let delta :=
      if evaluationParams.CreditScore < 700 ∧ evaluationParams.CreditScore > 500 then
        delta.add (Float32.ofDyadic 1 2)
      else if evaluationParams.CreditScore < 500 ∧ evaluationParams.CreditScore > 300 then
        delta.add (Float32.ofDyadic 1 1)
      else delta
    let delta :=
      if evaluationParams.Age > 30 ∧ evaluationParams.Age < 50 then
        delta.add (Float32.ofDyadic 1 2)
      else if evaluationParams.Age > 50 then
        delta.add (Float32.ofDyadic 1 1)
      else delta
    let delta :=
      if Float64.lt (Float64.ofNat 1000) evaluationParams.MonthlyIncome
          && Float64.lt evaluationParams.MonthlyIncome (Float64.ofNat 3000) then
        delta.add (Float32.ofDyadic 1 1)
      else if Float64.lt (Float64.ofNat 3000) evaluationParams.MonthlyIncome then
        delta.add (Float32.ofDyadic 1 2)
      else delta
    let finalRate := baseRate.add delta
    ({ bidDetails with
        ApplicationAcceptStatus := LENDER_ACCEPT_APPLICATION
        BiddingNumber := drawn.1
        LenderId := 1
        SanctionedAmount := evaluationParams.LoanAmount
        InterestType := "simple"
        InterestRate := finalRate
        IsWinningBid := false }, drawn.2)

/-- The function `GetQuoteFromLender2` (source lines 316-373). -/
def GetQuoteFromLender2 (rng : RandSource) (evaluationParams : EvaluationParams) :
    BiddingDetails × RandSource :=
  let bidDetails : BiddingDetails := BiddingDetails.zero
  let bidDetails := { bidDetails with ApplicationNumber := evaluationParams.ApplicationNumber }
  if evaluationParams.CreditScore < 300 then
    ({ bidDetails with
        ApplicationAcceptStatus := LENDER_REJECT_APPLICATION
        RejectionReason := "Not meeting credit score requirements" }, rng)
  else if evaluationParams.Age < 18 then
    ({ bidDetails with
        ApplicationAcceptStatus := LENDER_REJECT_APPLICATION
        RejectionReason := "Not meeting age requirements" }, rng)
  else if RuneCountInString evaluationParams.SSN ≠ 7 then
    ({ bidDetails with
        ApplicationAcceptStatus := LENDER_REJECT_APPLICATION
        RejectionReason := "Invalid SSN" }, rng)
  else if Float64.lt evaluationParams.MonthlyIncome (Float64.ofNat 1000) then
    ({ bidDetails with
        ApplicationAcceptStatus := LENDER_REJECT_APPLICATION
        RejectionReason := "Not meeting monthly income requirements" }, rng)
  else
    let drawn := GenerateBiddingNumber rng
    let baseRate : Float32 := Float32.ofDyadic 5 0
    let delta : Float32 := Float32.ofDyadic 0 0
    let delta :=
      if evaluationParams.CreditScore < 700 ∧ evaluationParams.CreditScore > 500 then
        delta.add (Float32.ofDyadic 1 2)
      else if evaluationParams.CreditScore < 500 ∧ evaluationParams.CreditScore > 300 then
        delta.add (Float32.ofDyadic 1 1)
      else delta
    let delta :=
      if evaluationParams.Age > 30 ∧ evaluationParams.Age < 50 then
        delta.add (Float32.ofDyadic 1 2)
      else if evaluationParams.Age > 50 then
        delta.add (Float32.ofDyadic 1 1)
      else delta
    let delta :=
      if Float64.lt (Float64.ofNat 1000) evaluationParams.MonthlyIncome
          && Float64.lt evaluationParams.MonthlyIncome (Float64.ofNat 3000) then
        delta.add (Float32.ofDyadic 1 1)
      else if Float64.lt (Float64.ofNat 3000) evaluationParams.MonthlyIncome then
        delta.add (Float32.ofDyadic 1 2)
      else delta
    let finalRate := baseRate.add delta
    ({ bidDetails with
        ApplicationAcceptStatus := LENDER_ACCEPT_APPLICATION
        BiddingNumber := drawn.1
        LenderId := 2
        SanctionedAmount := evaluationParams.LoanAmount
        InterestType := "floating"
        InterestRate := finalRate
        IsWinningBid := false }, drawn.2)

/-- The function `GetQuoteFromLender3` (source lines 375-432). -/
def GetQuoteFromLender3 (rng : RandSource) (evaluationParams : EvaluationParams) :
    BiddingDetails × RandSource :=
  let bidDetails : BiddingDetails := BiddingDetails.zero
  let bidDetails := { bidDetails with ApplicationNumber := evaluationParams.ApplicationNumber }
  if evaluationParams.CreditScore < 300 then
    ({ bidDetails with
        ApplicationAcceptStatus := LENDER_REJECT_APPLICATION
        RejectionReason := "Not meeting credit score requirements" }, rng)
  else if evaluationParams.Age < 18 then
    ({ bidDetails with
        ApplicationAcceptStatus := LENDER_REJECT_APPLICATION
        RejectionReason := "Not meeting age requirements" }, rng)
  else if RuneCountInString evaluationParams.SSN ≠ 7 then
    ({ bidDetails with
        ApplicationAcceptStatus := LENDER_REJECT_APPLICATION
        RejectionReason := "Invalid SSN" }, rng)
  else if Float64.lt evaluationParams.MonthlyIncome (Float64.ofNat 1000) then
    ({ bidDetails with
        ApplicationAcceptStatus := LENDER_REJECT_APPLICATION
        RejectionReason := "Not meeting monthly income requirements" }, rng)
  else
    let drawn := GenerateBiddingNumber rng
    let baseRate : Float32 := Float32.ofDyadic 5 0
    let delta : Float32 := Float32.ofDyadic 0 0
    let delta :=
      if evaluationParams.CreditScore < 700 ∧ evaluationParams.CreditScore > 500 then
        delta.add (Float32.ofDyadic 1 2)
      else if evaluationParams.CreditScore < 500 ∧ evaluationParams.CreditScore > 300 then
        delta.add (Float32.ofDyadic 1 1)
      else delta
    let delta :=
      if evaluationParams.Age > 30 ∧ evaluationParams.Age < 50 then
        delta.add (Float32.ofDyadic 1 2)
      else if evaluationParams.Age > 50 then
        delta.add (Float32.ofDyadic 1 1)
      else delta
    let delta :=
      if Float64.lt (Float64.ofNat 1000) evaluationParams.MonthlyIncome
          && Float64.lt evaluationParams.MonthlyIncome (Float64.ofNat 3000) then
        delta.add (Float32.ofDyadic 1 1)
      else if Float64.lt (Float64.ofNat 3000) evaluationParams.MonthlyIncome then
        delta.add (Float32.ofDyadic 1 2)
      else delta
    let finalRate := baseRate.add delta
    ({ bidDetails with
        ApplicationAcceptStatus := LENDER_ACCEPT_APPLICATION
        BiddingNumber := drawn.1
        LenderId := 3
        SanctionedAmount := evaluationParams.LoanAmount
        InterestType := "simple"
        InterestRate := finalRate
        IsWinningBid := false }, drawn.2)

/-- The function `GetQuoteFromLender4` (source lines 434-491). -/
def GetQuoteFromLender4 (rng : RandSource) (evaluationParams : EvaluationParams) :
    BiddingDetails × RandSource :=
  let bidDetails : BiddingDetails := BiddingDetails.zero
  let bidDetails := { bidDetails with ApplicationNumber := evaluationParams.ApplicationNumber }
  if evaluationParams.CreditScore < 300 then
    ({ bidDetails with
        ApplicationAcceptStatus := LENDER_REJECT_APPLICATION
        RejectionReason := "Not meeting credit score requirements" }, rng)
  else if evaluationParams.Age < 18 then
    ({ bidDetails with
        ApplicationAcceptStatus := LENDER_REJECT_APPLICATION
        RejectionReason := "Not meeting age requirements" }, rng)
  else if RuneCountInString evaluationParams.SSN ≠ 7 then
    ({ bidDetails with
        ApplicationAcceptStatus := LENDER_REJECT_APPLICATION
        RejectionReason := "Invalid SSN" }, rng)
  else if Float64.lt evaluationParams.MonthlyIncome (Float64.ofNat 1000) then
    ({ bidDetails with
        ApplicationAcceptStatus := LENDER_REJECT_APPLICATION
        RejectionReason := "Not meeting monthly income requirements" }, rng)
  else
    let drawn := GenerateBiddingNumber rng
    let baseRate : Float32 := Float32.ofDyadic 5 0
    let delta : Float32 := Float32.ofDyadic 0 0
    let delta :=
      if evaluationParams.CreditScore < 700 ∧ evaluationParams.CreditScore > 500 then
        delta.add (Float32.ofDyadic 1 2)
      else if evaluationParams.CreditScore < 500 ∧ evaluationParams.CreditScore > 300 then
        delta.add (Float32.ofDyadic 1 1)
      else delta
    let delta :=
      if evaluationParams.Age > 30 ∧ evaluationParams.Age < 50 then
        delta.add (Float32.ofDyadic 1 2)
      else if evaluationParams.Age > 50 then
        delta.add (Float32.ofDyadic 1 1)
      else delta
    let delta :=
      if Float64.lt (Float64.ofNat 1000) evaluationParams.MonthlyIncome
          && Float64.lt evaluationParams.MonthlyIncome (Float64.ofNat 3000) then
        delta.add (Float32.ofDyadic 1 1)
      else if Float64.lt (Float64.ofNat 3000) evaluationParams.MonthlyIncome then
        delta.add (Float32.ofDyadic 1 2)
      else delta
    let finalRate := baseRate.add delta
    ({ bidDetails with
        ApplicationAcceptStatus := LENDER_ACCEPT_APPLICATION
        BiddingNumber := drawn.1
        LenderId := 4
        SanctionedAmount := evaluationParams.LoanAmount
        InterestType := "floating"
        InterestRate := finalRate
        IsWinningBid := false }, drawn.2)

/-- The body shared by the four lender functions, with the two constants in
which they differ taken as arguments. -/
def lenderRule (lenderId : Int) (interestType : String) (rng : RandSource)
    (evaluationParams : EvaluationParams) : BiddingDetails × RandSource :=
  let bidDetails : BiddingDetails := BiddingDetails.zero
  let bidDetails := { bidDetails with ApplicationNumber := evaluationParams.ApplicationNumber }
  if evaluationParams.CreditScore < 300 then
    ({ bidDetails with
        ApplicationAcceptStatus := LENDER_REJECT_APPLICATION
        RejectionReason := "Not meeting credit score requirements" }, rng)
  else if evaluationParams.Age < 18 then
    ({ bidDetails with
        ApplicationAcceptStatus := LENDER_REJECT_APPLICATION
        RejectionReason := "Not meeting age requirements" }, rng)
  else if RuneCountInString evaluationParams.SSN ≠ 7 then
    ({ bidDetails with
        ApplicationAcceptStatus := LENDER_REJECT_APPLICATION
        RejectionReason := "Invalid SSN" }, rng)
  else if Float64.lt evaluationParams.MonthlyIncome (Float64.ofNat 1000) then
    ({ bidDetails with
        ApplicationAcceptStatus := LENDER_REJECT_APPLICATION
        RejectionReason := "Not meeting monthly income requirements" }, rng)
  else
    let drawn := GenerateBiddingNumber rng
    let baseRate : Float32 := Float32.ofDyadic 5 0
    let delta : Float32 := Float32.ofDyadic 0 0
    let delta :=
      if evaluationParams.CreditScore < 700 ∧ evaluationParams.CreditScore > 500 then
        delta.add (Float32.ofDyadic 1 2)
      else if evaluationParams.CreditScore < 500 ∧ evaluationParams.CreditScore > 300 then
        delta.add (Float32.ofDyadic 1 1)
      else delta
    let delta :=
      if evaluationParams.Age > 30 ∧ evaluationParams.Age < 50 then
        delta.add (Float32.ofDyadic 1 2)
      else if evaluationParams.Age > 50 then
        delta.add (Float32.ofDyadic 1 1)
      else delta
    let delta :=
      if Float64.lt (Float64.ofNat 1000) evaluationParams.MonthlyIncome
          && Float64.lt evaluationParams.MonthlyIncome (Float64.ofNat 3000) then
        delta.add (Float32.ofDyadic 1 1)
      else if Float64.lt (Float64.ofNat 3000) evaluationParams.MonthlyIncome then
        delta.add (Float32.ofDyadic 1 2)
      else delta
    let finalRate := baseRate.add delta
    ({ bidDetails with
        ApplicationAcceptStatus := LENDER_ACCEPT_APPLICATION
        BiddingNumber := drawn.1
        LenderId := lenderId
        SanctionedAmount := evaluationParams.LoanAmount
        InterestType := interestType
        InterestRate := finalRate
        IsWinningBid := false }, drawn.2)

/-- The pricing block of a lender (source lines 287-309, and the same lines
of the other three lenders) as a function of the three fields it reads. -/
def pricingBlock (creditScore age : Int) (monthlyIncome : Float64) : Float32 :=
  let baseRate : Float32 := Float32.ofDyadic 5 0
  let delta : Float32 := Float32.ofDyadic 0 0
  let delta :=
    if creditScore < 700 ∧ creditScore > 500 then
      delta.add (Float32.ofDyadic 1 2)
    else if creditScore < 500 ∧ creditScore > 300 then
      delta.add (Float32.ofDyadic 1 1)
    else delta
  let delta :=
    if age > 30 ∧ age < 50 then
      delta.add (Float32.ofDyadic 1 2)
    else if age > 50 then
      delta.add (Float32.ofDyadic 1 1)
    else delta
  let delta :=
    if Float64.lt (Float64.ofNat 1000) monthlyIncome
        && Float64.lt monthlyIncome (Float64.ofNat 3000) then
      delta.add (Float32.ofDyadic 1 1)
    else if Float64.lt (Float64.ofNat 3000) monthlyIncome then
      delta.add (Float32.ofDyadic 1 2)
    else delta
  baseRate.add delta

/-! ## The rules in the words of the specification -/

/-- Specification, section 4.2: the rejection rule in its fixed priority
order, read as a property of a quote `q` given for the parameters `p`. -/
def FollowsRejectionRule (p : EvaluationParams) (q : BiddingDetails) : Prop :=
  (p.CreditScore < 300 →
    q.ApplicationAcceptStatus = LENDER_REJECT_APPLICATION ∧
      q.RejectionReason = "Not meeting credit score requirements") ∧
  (¬ p.CreditScore < 300 → p.Age < 18 →
    q.ApplicationAcceptStatus = LENDER_REJECT_APPLICATION ∧
      q.RejectionReason = "Not meeting age requirements") ∧
  (¬ p.CreditScore < 300 → ¬ p.Age < 18 → p.SSN.length ≠ 7 →
    q.ApplicationAcceptStatus = LENDER_REJECT_APPLICATION ∧
      q.RejectionReason = "Invalid SSN") ∧
  (¬ p.CreditScore < 300 → ¬ p.Age < 18 → p.SSN.length = 7 →
    Float64.lt p.MonthlyIncome (Float64.ofNat 1000) = true →
    q.ApplicationAcceptStatus = LENDER_REJECT_APPLICATION ∧
      q.RejectionReason = "Not meeting monthly income requirements") ∧
  (¬ p.CreditScore < 300 → ¬ p.Age < 18 → p.SSN.length = 7 →
    Float64.lt p.MonthlyIncome (Float64.ofNat 1000) = false →
    q.ApplicationAcceptStatus = LENDER_ACCEPT_APPLICATION) ∧
  (q.RejectionReason ≠ "" ↔ q.ApplicationAcceptStatus = LENDER_REJECT_APPLICATION)

/-- Specification, section 4.2: the credit-score term of the interest rate. -/
def specDeltaCredit (creditScore : Int) : ℚ :=
  if 500 < creditScore ∧ creditScore < 700 then 1 / 4
  else if 300 < creditScore ∧ creditScore < 500 then 1 / 2
  else 0

/-- Specification, section 4.2: the age term of the interest rate. -/
def specDeltaAge (age : Int) : ℚ :=
  if 30 < age ∧ age < 50 then 1 / 4
  else if 50 < age then 1 / 2
  else 0

/-- Specification, section 4.2: the income term of the interest rate. -/
def specDeltaIncome (monthlyIncome : Float64) : ℚ :=
  if Float64.lt (Float64.ofNat 1000) monthlyIncome
      && Float64.lt monthlyIncome (Float64.ofNat 3000) then 1 / 2
  else if Float64.lt (Float64.ofNat 3000) monthlyIncome then 1 / 4
  else 0

/-- Specification, section 4.2: the interest rate of an accepted application. -/
def specInterestRate (p : EvaluationParams) : ℚ :=
  5 + specDeltaCredit p.CreditScore + specDeltaAge p.Age + specDeltaIncome p.MonthlyIncome

/-- An accepted quote `q` for `p` carries the rate of the specification, exactly. -/
def PricedAsSpecified (p : EvaluationParams) (q : BiddingDetails) : Prop :=
  q.ApplicationAcceptStatus = LENDER_ACCEPT_APPLICATION →
    q.InterestRate.toRat = some (specInterestRate p)

/-- Specification, sections 4.2 and 8: the pricing brackets are strictly open.
Stated of a quote function `f`; the rate is read as an exact rational. -/
def StrictlyOpenBrackets
    (f : RandSource → EvaluationParams → BiddingDetails × RandSource) : Prop :=
  (∀ rng p, (f rng p).1.ApplicationAcceptStatus = LENDER_ACCEPT_APPLICATION →
    (p.CreditScore = 500 → (f rng p).1.InterestRate.toRat
        = some (5 + 0 + specDeltaAge p.Age + specDeltaIncome p.MonthlyIncome)) ∧
    (p.CreditScore = 501 → (f rng p).1.InterestRate.toRat
        = some (5 + 1 / 4 + specDeltaAge p.Age + specDeltaIncome p.MonthlyIncome)) ∧
    (p.CreditScore = 300 ∨ p.CreditScore = 500 ∨ p.CreditScore = 700 →
      (f rng p).1.InterestRate.toRat
        = some (5 + 0 + specDeltaAge p.Age + specDeltaIncome p.MonthlyIncome)) ∧
    (p.Age = 18 ∨ p.Age = 30 ∨ p.Age = 50 →
      (f rng p).1.InterestRate.toRat
        = some (5 + specDeltaCredit p.CreditScore + 0 + specDeltaIncome p.MonthlyIncome)) ∧
    (p.MonthlyIncome = Float64.ofNat 1000 ∨ p.MonthlyIncome = Float64.ofNat 3000 →
      (f rng p).1.InterestRate.toRat
        = some (5 + specDeltaCredit p.CreditScore + specDeltaAge p.Age + 0))) ∧
  (∀ rng rng2 p p2,
    (f rng p).1.ApplicationAcceptStatus = LENDER_ACCEPT_APPLICATION →
    (f rng2 p2).1.ApplicationAcceptStatus = LENDER_ACCEPT_APPLICATION →
    p.CreditScore = 500 → p2.CreditScore = 501 →
    p2.Age = p.Age → p2.MonthlyIncome = p.MonthlyIncome →
    ∃ r : ℚ, (f rng p).1.InterestRate.toRat = some r ∧
      (f rng2 p2).1.InterestRate.toRat = some (r + 1 / 4)) ∧
  (∀ rng p, p.CreditScore = 500 → p.Age = 30 →
    p.MonthlyIncome = Float64.ofNat 1000 → p.SSN.length = 7 →
    (f rng p).1.ApplicationAcceptStatus = LENDER_ACCEPT_APPLICATION ∧
      (f rng p).1.InterestRate.toRat = some 5)

/-- Specification, section 4.2: the fixed fields of an accepted quote `q` for
`p`, given by a lender whose interest-type tag is `interestType`. -/
def AcceptedQuoteShape (interestType : String) (p : EvaluationParams)
    (q : BiddingDetails) : Prop :=
  q.ApplicationAcceptStatus = LENDER_ACCEPT_APPLICATION →
    q.SanctionedAmount = p.LoanAmount ∧ q.IsWinningBid = false ∧
      q.InterestType = interestType

/-! ## The ledger stub and serialization -/

/-- A non-nil byte slice. The text that `json.Marshal` produces for an
application is kept as the application it encodes; any other content is raw
bytes. A nil slice is `none : Option Bytes`. -/
inductive Bytes where
  | json (a : LoanApplication)
  | raw (b : List Nat)
deriving DecidableEq, Repr

/-- A Go error value: one made by `errors.New`, or the unsupported-value error
of `encoding/json`. -/
inductive Error where
  | New (msg : String)
  | UnsupportedValue
deriving DecidableEq, Repr

/-- The shim stub of one invocation: the world state, and what the peer
answers during the invocation. -/
structure ChaincodeStub where
  state : String → Option Bytes
  getStateErr : String → Bool
  putStateErr : String → Option Bytes → Bool
  txID : String
  txTimestamp : Option String
  callerMetadata : List Nat

/-- The call `stub.GetState(key)`: the bytes and whether an error is reported.
A key without a value reads as nil. -/
def ChaincodeStub.GetState (stub : ChaincodeStub) (key : String) : Option Bytes × Bool :=
  if stub.getStateErr key then (none, true) else (stub.state key, false)

/-- The call `stub.PutState(key, value)`: the stub after the call and whether
an error is reported. A failed write leaves the state as it was. -/
def ChaincodeStub.PutState (stub : ChaincodeStub) (key : String) (value : Option Bytes) :
    ChaincodeStub × Bool :=
  if stub.putStateErr key value then (stub, true)
  else ({ stub with state := fun k => if k = key then value else stub.state k }, false)

/-- Whether `json.Marshal` can encode the quotation: it refuses NaN and the
infinities. -/
def BiddingDetails.marshalable (q : BiddingDetails) : Bool :=
  q.SanctionedAmount.isFinite && q.InterestRate.isFinite

/-- Whether `json.Marshal` can encode the application. -/
def LoanApplication.marshalable (a : LoanApplication) : Bool :=
  a.LoanAmount.isFinite && a.MonthlyIncome.isFinite
    && a.Quotations.all BiddingDetails.marshalable

/-- The call `json.Marshal(applicationDetails)`: the bytes (nil on error) and
the error. -/
def jsonMarshal (a : LoanApplication) : Option Bytes × Option Error :=
  if a.marshalable then (some (.json a), none) else (none, some .UnsupportedValue)

/-- The call `json.Unmarshal(bytes, applicationDetails)` of line 224. The
second argument is the struct itself, not a pointer to it: the call can only
report an error, and the variable of the caller keeps its value. -/
def jsonUnmarshalIntoValue (_data : Bytes) (_v : LoanApplication) : Option Error :=
  some (.New "json: Unmarshal(non-pointer main.LoanApplication)")

/-- What an invoke function returns: `([]byte, error)`. -/
structure Response where
  bytes : Option Bytes
  err : Option Error
deriving DecidableEq, Repr

/-- The application that the returned bytes encode, if they encode one. -/
def Response.application (r : Response) : Option LoanApplication :=
  match r.bytes with
  | some (.json a) => some a
  | _ => none

/-! ## Private functions -/

/-- The function `GetTransactionMetadata` (source lines 243-255). -/
def GetTransactionMetadata (stub : ChaincodeStub) (applicationDetails : LoanApplication) :
    TransactionMetadata :=
  let metadata : TransactionMetadata := TransactionMetadata.zero
  let metadata := { metadata with ApplicationState := applicationDetails.Status }
  let metadata := { metadata with TransactionId := stub.txID }
  let metadata :=
    match stub.txTimestamp with
    | some txnTimeStamp => { metadata with TransactionTimestamp := txnTimeStamp }
    | none => metadata
  let metadata := { metadata with CallerMetadata := stub.callerMetadata }
  metadata

/-- The function `SaveApplicationDetails` (source lines 230-241). -/
def SaveApplicationDetails (stub : ChaincodeStub) (applicationDetails : LoanApplication) :
    LoanApplication × ChaincodeStub :=
  let marshalled := jsonMarshal applicationDetails
  let put := stub.PutState applicationDetails.ApplicationNumber marshalled.1
  if put.2 = false then
    let metadata := GetTransactionMetadata put.1 applicationDetails
    ({ applicationDetails with
        Transactions := applicationDetails.Transactions ++ [metadata] }, put.1)
  else (applicationDetails, put.1)

/-- The function `GetApplicationDetails` (source lines 218-228). -/
def GetApplicationDetails (stub : ChaincodeStub) (applicationNumber : String) :
    LoanApplication :=
  let got := stub.GetState applicationNumber
  let applicationDetails : LoanApplication := LoanApplication.zero
  match got.1 with
  | some bytes =>
    if got.2 then
      let _err := jsonUnmarshalIntoValue bytes applicationDetails
      applicationDetails
    else applicationDetails
  | none => applicationDetails

/-! ## Invoke functions -/

/-- The function `CreateLoanApplication` (source lines 132-183). `ParseFloat`
stands for `strconv.ParseFloat(·, 64)`: the value and whether an error is
reported. Fewer than 8 arguments make an index expression panic. -/
def CreateLoanApplication (ParseFloat : String → Float64 × Bool) (stub : ChaincodeStub)
    (rng : RandSource) (applicationArgs : List String) :
    Option (Response × ChaincodeStub × RandSource) :=
  match applicationArgs with
  | [] => none
  | arg0 :: rest =>
    if arg0 = "" then
      some ({ bytes := none, err := some (.New "Invalid application") }, stub, rng)
    else if (stub.GetState arg0).1.isSome then
      some ({ bytes := none, err := some (.New "Application already exist") }, stub, rng)
    else
      match rest with
      | make :: model :: arg3 :: ssn :: arg5 :: arg6 :: arg7 :: _ =>
        let applicationNumber := arg0
        let loanAmount := (ParseFloat arg3).1
        let age := (Atoi arg5).1
        let monthlyIncome := (ParseFloat arg6).1
        let creditScore := (Atoi arg7).1
        let applicationDetails : LoanApplication :=
          { ApplicationNumber := applicationNumber, Make := make, Model := model,
            LoanAmount := loanAmount, SSN := ssn, Age := age,
            MonthlyIncome := monthlyIncome, CreditScore := creditScore,
            Status := STATE_APPLIED, Transactions := [], Quotations := [] }
        let saved := SaveApplicationDetails stub applicationDetails
        let evaluationParams : EvaluationParams :=
          { ApplicationNumber := applicationNumber, LoanAmount := loanAmount, SSN := ssn,
            Age := age, MonthlyIncome := monthlyIncome, CreditScore := creditScore }
        let quoteFromLender1 := GetQuoteFromLender1 rng evaluationParams
        let quoteFromLender2 := GetQuoteFromLender2 quoteFromLender1.2 evaluationParams
        let quoteFromLender3 := GetQuoteFromLender3 quoteFromLender2.2 evaluationParams
        let quoteFromLender4 := GetQuoteFromLender4 quoteFromLender3.2 evaluationParams
        let quotes : List BiddingDetails := []
        let quotes := quotes ++ [quoteFromLender1.1]
        let quotes := quotes ++ [quoteFromLender2.1]
        let quotes := quotes ++ [quoteFromLender3.1]
        let quotes := quotes ++ [quoteFromLender4.1]
        let applicationDetails := { saved.1 with Quotations := quotes }
        let applicationDetails := { applicationDetails with Status := STATE_QUOTATIONS_RECEIVED }
        let saved := SaveApplicationDetails saved.2 applicationDetails
        let marshalled := jsonMarshal saved.1
        some ({ bytes := marshalled.1, err := marshalled.2 }, saved.2, quoteFromLender4.2)
      | _ => none

/-- The loop of `ConfirmBid` (source lines 202-206): the quotations are visited
in order, each once. -/
def confirmBidLoop (biddingNumber bidStatus : Int) :
    List BiddingDetails → List BiddingDetails
  | [] => []
  | q :: qs =>
    (if q.BiddingNumber = biddingNumber ∧ bidStatus = STATE_BID_ACCEPTED then
        { q with IsWinningBid := true }
      else q) :: confirmBidLoop biddingNumber bidStatus qs

/-- The function `ConfirmBid` (source lines 185-213). Fewer than 3 arguments
make an index expression panic. -/
def ConfirmBid (stub : ChaincodeStub) (applicationArgs : List String) :
    Option (Response × ChaincodeStub) :=
  match applicationArgs with
  | [] => none
  | arg0 :: rest =>
    let got := stub.GetState arg0
    if got.2 then
      some ({ bytes := none,
              err := some (.New "Error while getting application details") }, stub)
    else if got.1.isSome then
      some ({ bytes := none, err := some (.New "Invalid application number") }, stub)
    else
      match rest with
      | arg1 :: arg2 :: _ =>
        let biddingNumber := (Atoi arg1).1
        let bidStatus := (Atoi arg2).1
        let applicationDetails := GetApplicationDetails stub arg0
        let applicationDetails := { applicationDetails with Status := bidStatus }
        let applicationDetails :=
          { applicationDetails with
              Quotations := confirmBidLoop biddingNumber bidStatus applicationDetails.Quotations }
        let saved := SaveApplicationDetails stub applicationDetails
        let marshalled := jsonMarshal saved.1
        some ({ bytes := marshalled.1, err := marshalled.2 }, saved.2)
      | _ => none

/-- The parameters pass the four checks of the lender body. -/
def Eligible (p : EvaluationParams) : Prop :=
  ¬ p.CreditScore < 300 ∧ ¬ p.Age < 18 ∧ RuneCountInString p.SSN = 7 ∧
    Float64.lt p.MonthlyIncome (Float64.ofNat 1000) = false

/-- The application built at source line 156 from the eight arguments. -/
def createdApplication (ParseFloat : String → Float64 × Bool)
    (arg0 make model arg3 ssn arg5 arg6 arg7 : String) : LoanApplication :=
  { ApplicationNumber := arg0, Make := make, Model := model,
    LoanAmount := (ParseFloat arg3).1, SSN := ssn, Age := (Atoi arg5).1,
    MonthlyIncome := (ParseFloat arg6).1, CreditScore := (Atoi arg7).1,
    Status := STATE_APPLIED, Transactions := [], Quotations := [] }

/-- The evaluation parameters built at source line 162. -/
def createdParams (ParseFloat : String → Float64 × Bool)
    (arg0 arg3 ssn arg5 arg6 arg7 : String) : EvaluationParams :=
  { ApplicationNumber := arg0, LoanAmount := (ParseFloat arg3).1, SSN := ssn,
    Age := (Atoi arg5).1, MonthlyIncome := (ParseFloat arg6).1,
    CreditScore := (Atoi arg7).1 }

/-- The quotes gathered at source lines 165-175, in lender order, and the
random source after the four lenders have run. -/
def panelQuotes (rng : RandSource) (p : EvaluationParams) :
    List BiddingDetails × RandSource :=
  let q1 := GetQuoteFromLender1 rng p
  let q2 := GetQuoteFromLender2 q1.2 p
  let q3 := GetQuoteFromLender3 q2.2 p
  let q4 := GetQuoteFromLender4 q3.2 p
  ([q1.1, q2.1, q3.1, q4.1], q4.2)

/-- No quotation of the application is marked as the winning bid. -/
def NoWinningBid (a : LoanApplication) : Prop :=
  ∀ q ∈ a.Quotations, q.IsWinningBid = false

/-- Every application held in the world state has no winning bid. -/
def StateWithoutWinner (state : String → Option Bytes) : Prop :=
  ∀ key a, state key = some (.json a) → NoWinningBid a

/-! ## Histories -/

/-- The world states that a sequence of `CreateLoanApplication` and
`ConfirmBid` invocations can produce from the empty state. Each invocation
runs with a stub of its own (its transaction id, timestamp, caller, failures)
and with any state of the random source. -/
inductive Reachable (ParseFloat : String → Float64 × Bool) :
    (String → Option Bytes) → Prop where
  | empty : Reachable ParseFloat (fun _ => none)
  | create (stub : ChaincodeStub) (rng : RandSource) (args : List String)
      (r : Response × ChaincodeStub × RandSource) :
      Reachable ParseFloat stub.state →
      CreateLoanApplication ParseFloat stub rng args = some r →
      Reachable ParseFloat r.2.1.state
  | confirm (stub : ChaincodeStub) (args : List String) (r : Response × ChaincodeStub) :
      Reachable ParseFloat stub.state →
      ConfirmBid stub args = some r →
      Reachable ParseFloat r.2.state

/-- At most one quotation of the application is marked as the winning bid. -/
def AtMostOneWinningBid (a : LoanApplication) : Prop :=
  (a.Quotations.filter (fun q => q.IsWinningBid)).length ≤ 1

/-! ## Worked inputs -/

/-- Reads a plain decimal numeral below `2^53` as `strconv.ParseFloat(s, 64)`
does, exactly. On any other input it reports an error with value 0, which is
what `ParseFloat` does on a syntax error only: it is used on numerals alone. -/
def parseFloatNumeral (s : String) : Float64 × Bool :=
  let ds := s.toList
  let n : Nat := ds.foldl (fun acc d => acc * 10 + (d.toNat - 48)) 0
  if !ds.isEmpty && ds.all Char.isDigit && decide (n < 2 ^ 53) then (Float64.ofNat n, false)
  else (Float64.ofNat 0, true)

/-- The evaluation parameters of the worked example of the specification
(application A100). -/
def exampleParams : EvaluationParams :=
  { ApplicationNumber := "A100", LoanAmount := Float64.ofNat 20000, SSN := "1234567",
    Age := 35, MonthlyIncome := Float64.ofNat 4000, CreditScore := 650 }

/-- A random source whose draws are 11, 22, 33, 44, ... -/
def exampleRand : RandSource := { draws := fun i => 11 * (i + 1) }

/-- A stub over the empty world state, with no failing read or write. -/
def exampleStub : ChaincodeStub :=
  { state := fun _ => none, getStateErr := fun _ => false,
    putStateErr := fun _ _ => false, txID := "tx-1",
    txTimestamp := some "seconds:1480000000", callerMetadata := [] }

/-- The arguments of the worked example of the specification. -/
def exampleArgs : List String :=
  ["A100", "Toyota", "Corolla", "20000", "1234567", "35", "4000", "650"]

/-- The worked example with a credit score of 200 in place of 650. -/
def rejectedArgs : List String :=
  ["A100", "Toyota", "Corolla", "20000", "1234567", "35", "4000", "200"]

/-- A random source whose draws are all 7. -/
def constantRand : RandSource := { draws := fun _ => 7 }

/-- The stub of a later invocation, over the world state that creating the
worked example leaves behind. -/
def storedStub : ChaincodeStub :=
  match CreateLoanApplication parseFloatNumeral exampleStub exampleRand exampleArgs with
  | some r => { r.2.1 with txID := "tx-2" }
  | none => exampleStub

/-- The application that `storedStub` holds under "A100" (the zero value if
there were none). -/
def storedApplication : LoanApplication :=
  match storedStub.state "A100" with
  | some (.json a) => a
  | _ => LoanApplication.zero

/-- The application returned by creating `rejectedArgs` over the empty state
(the zero value if none were returned). -/
def rejectedApplication : LoanApplication :=
  match CreateLoanApplication parseFloatNumeral exampleStub exampleRand rejectedArgs with
  | some ({ bytes := some (.json a), err := _ }, _, _) => a
  | _ => LoanApplication.zero

/-- The application returned by creating the worked example over the empty
state when every draw of the random source is 7 (the zero value if none were
returned). -/
def collidingApplication : LoanApplication :=
  match CreateLoanApplication parseFloatNumeral exampleStub constantRand exampleArgs with
  | some ({ bytes := some (.json a), err := _ }, _, _) => a
  | _ => LoanApplication.zero

/-- The record that `GetTransactionMetadata` builds for an application in the
given status: the transaction id, the timestamp (empty when the peer reports
none) and the caller metadata of the stub. -/
def auditEntry (stub : ChaincodeStub) (status : Int) : TransactionMetadata :=
  { ApplicationState := status, TransactionId := stub.txID,
    TransactionTimestamp := stub.txTimestamp.getD "",
    CallerMetadata := stub.callerMetadata }

/-- The application returned by `ConfirmBid` for A100, bidding number 11 and
target status BidAccepted over the empty state (the zero value if none were
returned). -/
def confirmedAbsentApplication : LoanApplication :=
  match ConfirmBid exampleStub ["A100", "11", "2"] with
  | some ({ bytes := some (.json a), err := _ }, _) => a
  | _ => LoanApplication.zero

/-- The application returned by `ConfirmBid` for A100, bidding number 11 and
target status 7 over the empty state (the zero value if none were returned). -/
def confirmedStatus7Application : LoanApplication :=
  match ConfirmBid exampleStub ["A100", "11", "7"] with
  | some ({ bytes := some (.json a), err := _ }, _) => a
  | _ => LoanApplication.zero

/-- The application that `CreateLoanApplication` returns for the eight
arguments when both of its writes are taken: the application of line 156 with
the four quotes, status QuotationsReceived, and the audit entries of the two
writes. -/
def returnedByCreate (ParseFloat : String → Float64 × Bool) (stub : ChaincodeStub)
    (rng : RandSource) (arg0 make model arg3 ssn arg5 arg6 arg7 : String) :
    LoanApplication :=
  { createdApplication ParseFloat arg0 make model arg3 ssn arg5 arg6 arg7 with
    Status := STATE_QUOTATIONS_RECEIVED
    Transactions := [auditEntry stub STATE_APPLIED, auditEntry stub STATE_QUOTATIONS_RECEIVED]
    Quotations := (panelQuotes rng (createdParams ParseFloat arg0 arg3 ssn arg5 arg6 arg7)).1 }

/-- The one rule of which the four lender functions are instances: the body
that they share, with the lender identity, the interest type and the drawn
bidding number as arguments. -/
def parameterizedRule (lenderId : Int) (interestType : String) (p : EvaluationParams)
    (biddingNumber : Int) : BiddingDetails :=
  if p.CreditScore < 300 then
    { BiddingDetails.zero with
      ApplicationNumber := p.ApplicationNumber
      ApplicationAcceptStatus := LENDER_REJECT_APPLICATION
      RejectionReason := "Not meeting credit score requirements" }
  else if p.Age < 18 then
    { BiddingDetails.zero with
      ApplicationNumber := p.ApplicationNumber
      ApplicationAcceptStatus := LENDER_REJECT_APPLICATION
      RejectionReason := "Not meeting age requirements" }
  else if RuneCountInString p.SSN ≠ 7 then
    { BiddingDetails.zero with
      ApplicationNumber := p.ApplicationNumber
      ApplicationAcceptStatus := LENDER_REJECT_APPLICATION
      RejectionReason := "Invalid SSN" }
  else if Float64.lt p.MonthlyIncome (Float64.ofNat 1000) then
    { BiddingDetails.zero with
      ApplicationNumber := p.ApplicationNumber
      ApplicationAcceptStatus := LENDER_REJECT_APPLICATION
      RejectionReason := "Not meeting monthly income requirements" }
  else
    { ApplicationNumber := p.ApplicationNumber
      BiddingNumber := biddingNumber
      LenderId := lenderId
      SanctionedAmount := p.LoanAmount
      InterestType := interestType
      InterestRate := pricingBlock p.CreditScore p.Age p.MonthlyIncome
      ApplicationAcceptStatus := LENDER_ACCEPT_APPLICATION
      RejectionReason := ""
      IsWinningBid := false }

/-- Two quotes agree on every field other than `LenderId` and `InterestType`. -/
def AgreeExceptLender (q q2 : BiddingDetails) : Prop :=
  q.ApplicationNumber = q2.ApplicationNumber ∧ q.BiddingNumber = q2.BiddingNumber ∧
  q.SanctionedAmount = q2.SanctionedAmount ∧ q.InterestRate = q2.InterestRate ∧
  q.ApplicationAcceptStatus = q2.ApplicationAcceptStatus ∧
  q.RejectionReason = q2.RejectionReason ∧ q.IsWinningBid = q2.IsWinningBid

/-- The worked example with the text "abc" as age. -/
def unparsableAgeArgs : List String :=
  ["A100", "Toyota", "Corolla", "20000", "1234567", "abc", "4000", "650"]

/-- The worked example with the empty text as credit score. -/
def emptyScoreArgs : List String :=
  ["A100", "Toyota", "Corolla", "20000", "1234567", "35", "4000", ""]

/-- The application returned by creating `unparsableAgeArgs` over the empty
state (the zero value if none were returned). -/
def unparsableAgeApplication : LoanApplication :=
  match CreateLoanApplication parseFloatNumeral exampleStub exampleRand unparsableAgeArgs with
  | some ({ bytes := some (.json a), err := _ }, _, _) => a
  | _ => LoanApplication.zero

/-- The application returned by creating `emptyScoreArgs` over the empty state
(the zero value if none were returned). -/
def emptyScoreApplication : LoanApplication :=
  match CreateLoanApplication parseFloatNumeral exampleStub exampleRand emptyScoreArgs with
  | some ({ bytes := some (.json a), err := _ }, _, _) => a
  | _ => LoanApplication.zero

/-- The application returned by creating the worked example over the empty
state (the zero value if none were returned). -/
def returnedApplication : LoanApplication :=
  match CreateLoanApplication parseFloatNumeral exampleStub exampleRand exampleArgs with
  | some ({ bytes := some (.json a), err := _ }, _, _) => a
  | _ => LoanApplication.zero

/-- The random source as creating the worked example leaves it. -/
def advancedRand : RandSource :=
  match CreateLoanApplication parseFloatNumeral exampleStub exampleRand exampleArgs with
  | some r => r.2.2
  | none => exampleRand

/-- The application returned by creating the worked example over the empty
state, with the same stub, once the random source has advanced (the zero value
if none were returned). -/
def replayedApplication : LoanApplication :=
  match CreateLoanApplication parseFloatNumeral exampleStub advancedRand exampleArgs with
  | some ({ bytes := some (.json a), err := _ }, _, _) => a
  | _ => LoanApplication.zero

/-- How the loop of `ConfirmBid` relates a quotation before it to the quotation
at the same position after it: every field other than `IsWinningBid` is the
same, and `IsWinningBid` is true afterwards exactly when it was true before or
the quotation carries the bidding number while the target status is
BidAccepted. -/
def MarkedFrom (biddingNumber bidStatus : Int) (before after : BiddingDetails) : Prop :=
  after.ApplicationNumber = before.ApplicationNumber ∧
  after.BiddingNumber = before.BiddingNumber ∧
  after.LenderId = before.LenderId ∧
  after.SanctionedAmount = before.SanctionedAmount ∧
  after.InterestType = before.InterestType ∧
  after.InterestRate = before.InterestRate ∧
  after.ApplicationAcceptStatus = before.ApplicationAcceptStatus ∧
  after.RejectionReason = before.RejectionReason ∧
  (after.IsWinningBid = true ↔
    (before.IsWinningBid = true ∨
      (before.BiddingNumber = biddingNumber ∧ bidStatus = STATE_BID_ACCEPTED)))

/-- Three quotations, numbered 11, 22, 11; the second is already marked as the
winning bid. -/
def sharedNumberQuotations : List BiddingDetails :=
  [{ BiddingDetails.zero with BiddingNumber := 11, LenderId := 1 },
   { BiddingDetails.zero with BiddingNumber := 22, LenderId := 2, IsWinningBid := true },
   { BiddingDetails.zero with BiddingNumber := 11, LenderId := 3 }]

/-! ## Properties -/

/-! ### The lenders -/

theorem GetQuoteFromLender1_eq (rng : RandSource) (p : EvaluationParams) :
    GetQuoteFromLender1 rng p = lenderRule 1 "simple" rng p := rfl

theorem GetQuoteFromLender2_eq (rng : RandSource) (p : EvaluationParams) :
    GetQuoteFromLender2 rng p = lenderRule 2 "floating" rng p := rfl

theorem GetQuoteFromLender3_eq (rng : RandSource) (p : EvaluationParams) :
    GetQuoteFromLender3 rng p = lenderRule 3 "simple" rng p := rfl

theorem GetQuoteFromLender4_eq (rng : RandSource) (p : EvaluationParams) :
    GetQuoteFromLender4 rng p = lenderRule 4 "floating" rng p := rfl

theorem toRat_of_quarters (x : Float32) (k : Nat) (q : ℚ)
    (hx : x = Float32.ofDyadic k 2) (hq : (k : ℚ) / 4 = q) : x.toRat = some q := by
  subst hx
  subst hq
  simp only [Float32.toRat, Float32.ofDyadic, signedUnits]
  norm_num
  ring

theorem Float64.lt_false_of_le (a b : Float64) (h : Float64.le a b = true) :
    Float64.lt b a = false := by
  cases a <;> cases b <;> simp_all [Float64.lt, Float64.le]
  rintro rfl
  simpa using h

theorem runeCount_eq_seven (s : String) : RuneCountInString s = 7 ↔ s.length = 7 := by
  unfold RuneCountInString
  omega

/-- The five branches of the lender body, each with the quote it returns. -/
theorem lenderRule_cases (lenderId : Int) (interestType : String) (rng : RandSource)
    (p : EvaluationParams) :
    (p.CreditScore < 300 ∧ lenderRule lenderId interestType rng p =
        ({ BiddingDetails.zero with
            ApplicationNumber := p.ApplicationNumber
            ApplicationAcceptStatus := LENDER_REJECT_APPLICATION
            RejectionReason := "Not meeting credit score requirements" }, rng)) ∨
    (¬ p.CreditScore < 300 ∧ p.Age < 18 ∧ lenderRule lenderId interestType rng p =
        ({ BiddingDetails.zero with
            ApplicationNumber := p.ApplicationNumber
            ApplicationAcceptStatus := LENDER_REJECT_APPLICATION
            RejectionReason := "Not meeting age requirements" }, rng)) ∨
    (¬ p.CreditScore < 300 ∧ ¬ p.Age < 18 ∧ RuneCountInString p.SSN ≠ 7 ∧
      lenderRule lenderId interestType rng p =
        ({ BiddingDetails.zero with
            ApplicationNumber := p.ApplicationNumber
            ApplicationAcceptStatus := LENDER_REJECT_APPLICATION
            RejectionReason := "Invalid SSN" }, rng)) ∨
    (¬ p.CreditScore < 300 ∧ ¬ p.Age < 18 ∧ RuneCountInString p.SSN = 7 ∧
      Float64.lt p.MonthlyIncome (Float64.ofNat 1000) = true ∧
      lenderRule lenderId interestType rng p =
        ({ BiddingDetails.zero with
            ApplicationNumber := p.ApplicationNumber
            ApplicationAcceptStatus := LENDER_REJECT_APPLICATION
            RejectionReason := "Not meeting monthly income requirements" }, rng)) ∨
    (¬ p.CreditScore < 300 ∧ ¬ p.Age < 18 ∧ RuneCountInString p.SSN = 7 ∧
      Float64.lt p.MonthlyIncome (Float64.ofNat 1000) = false ∧
      lenderRule lenderId interestType rng p =
        ({ ApplicationNumber := p.ApplicationNumber
           BiddingNumber := (GenerateBiddingNumber rng).1
           LenderId := lenderId
           SanctionedAmount := p.LoanAmount
           InterestType := interestType
           InterestRate := pricingBlock p.CreditScore p.Age p.MonthlyIncome
           ApplicationAcceptStatus := LENDER_ACCEPT_APPLICATION
           RejectionReason := ""
           IsWinningBid := false }, (GenerateBiddingNumber rng).2)) := by
  unfold lenderRule
  dsimp only
  by_cases h1 : p.CreditScore < 300
  · rw [if_pos h1]; exact Or.inl ⟨h1, rfl⟩
  by_cases h2 : p.Age < 18
  · rw [if_neg h1, if_pos h2]; exact Or.inr (Or.inl ⟨h1, h2, rfl⟩)
  by_cases h3 : RuneCountInString p.SSN ≠ 7
  · rw [if_neg h1, if_neg h2, if_pos h3]; exact Or.inr (Or.inr (Or.inl ⟨h1, h2, h3, rfl⟩))
  by_cases h4 : Float64.lt p.MonthlyIncome (Float64.ofNat 1000) = true
  · rw [if_neg h1, if_neg h2, if_neg h3, if_pos h4]
    exact Or.inr (Or.inr (Or.inr (Or.inl ⟨h1, h2, not_not.mp h3, h4, rfl⟩)))
  · rw [if_neg h1, if_neg h2, if_neg h3, if_neg h4]
    exact Or.inr (Or.inr (Or.inr (Or.inr
      ⟨h1, h2, not_not.mp h3, Bool.eq_false_iff.mpr h4, rfl⟩)))

/-- The pricing block computes, without any rounding error, the sum of the
specification. -/
theorem pricingBlock_toRat (cs age : Int) (inc : Float64) :
    (pricingBlock cs age inc).toRat
      = some (5 + specDeltaCredit cs + specDeltaAge age + specDeltaIncome inc) := by
  have e1 : (cs < 700 ∧ cs > 500) = (500 < cs ∧ cs < 700) := by
    simp only [gt_iff_lt, and_comm]
  have e2 : (cs < 500 ∧ cs > 300) = (300 < cs ∧ cs < 500) := by
    simp only [gt_iff_lt, and_comm]
  unfold pricingBlock specDeltaCredit specDeltaAge specDeltaIncome
  simp only [e1, e2, gt_iff_lt]
  by_cases h1 : 500 < cs ∧ cs < 700 <;> by_cases h2 : 300 < cs ∧ cs < 500 <;>
  by_cases h3 : 30 < age ∧ age < 50 <;> by_cases h4 : 50 < age <;>
  by_cases h5 : (Float64.lt (Float64.ofNat 1000) inc
          && Float64.lt inc (Float64.ofNat 3000)) = true <;>
  by_cases h6 : Float64.lt (Float64.ofNat 3000) inc = true <;>
  simp only [h1, h2, h3, h4, h5, h6, if_true, if_false] <;>
  first
    | exact toRat_of_quarters _ 20 _ (by decide) (by norm_num)
    | exact toRat_of_quarters _ 21 _ (by decide) (by norm_num)
    | exact toRat_of_quarters _ 22 _ (by decide) (by norm_num)
    | exact toRat_of_quarters _ 23 _ (by decide) (by norm_num)
    | exact toRat_of_quarters _ 24 _ (by decide) (by norm_num)
    | exact toRat_of_quarters _ 25 _ (by decide) (by norm_num)
    | exact toRat_of_quarters _ 26 _ (by decide) (by norm_num)

theorem lenderRule_followsRejectionRule (lenderId : Int) (interestType : String)
    (rng : RandSource) (p : EvaluationParams) :
    FollowsRejectionRule p (lenderRule lenderId interestType rng p).1 := by
  unfold FollowsRejectionRule
  rcases lenderRule_cases lenderId interestType rng p with
    ⟨h1, e⟩ | ⟨h1, h2, e⟩ | ⟨h1, h2, h3, e⟩ | ⟨h1, h2, h3, h4, e⟩ | ⟨h1, h2, h3, h4, e⟩ <;>
  rw [e] <;> refine ⟨?_, ?_, ?_, ?_, ?_, ?_⟩ <;>
  simp_all [LENDER_REJECT_APPLICATION, LENDER_ACCEPT_APPLICATION, runeCount_eq_seven]

theorem lenderRule_accept_of (lenderId : Int) (interestType : String)
    (rng : RandSource) (p : EvaluationParams)
    (hCS : 300 ≤ p.CreditScore) (hAge : 18 ≤ p.Age) (hSSN : p.SSN.length = 7)
    (hInc : Float64.le (Float64.ofNat 1000) p.MonthlyIncome = true) :
    (lenderRule lenderId interestType rng p).1.ApplicationAcceptStatus
      = LENDER_ACCEPT_APPLICATION :=
  (lenderRule_followsRejectionRule lenderId interestType rng p).2.2.2.2.1
    (by omega) (by omega) hSSN (Float64.lt_false_of_le _ _ hInc)

theorem lenderRule_accepted (lenderId : Int) (interestType : String) (rng : RandSource)
    (p : EvaluationParams)
    (h : (lenderRule lenderId interestType rng p).1.ApplicationAcceptStatus
      = LENDER_ACCEPT_APPLICATION) :
    lenderRule lenderId interestType rng p =
      ({ ApplicationNumber := p.ApplicationNumber
         BiddingNumber := (GenerateBiddingNumber rng).1
         LenderId := lenderId
         SanctionedAmount := p.LoanAmount
         InterestType := interestType
         InterestRate := pricingBlock p.CreditScore p.Age p.MonthlyIncome
         ApplicationAcceptStatus := LENDER_ACCEPT_APPLICATION
         RejectionReason := ""
         IsWinningBid := false }, (GenerateBiddingNumber rng).2) := by
  rcases lenderRule_cases lenderId interestType rng p with
    ⟨_, e⟩ | ⟨_, _, e⟩ | ⟨_, _, _, e⟩ | ⟨_, _, _, _, e⟩ | ⟨_, _, _, _, e⟩
  · rw [e] at h
    exact absurd (show LENDER_REJECT_APPLICATION = LENDER_ACCEPT_APPLICATION from h)
      (by decide)
  · rw [e] at h
    exact absurd (show LENDER_REJECT_APPLICATION = LENDER_ACCEPT_APPLICATION from h)
      (by decide)
  · rw [e] at h
    exact absurd (show LENDER_REJECT_APPLICATION = LENDER_ACCEPT_APPLICATION from h)
      (by decide)
  · rw [e] at h
    exact absurd (show LENDER_REJECT_APPLICATION = LENDER_ACCEPT_APPLICATION from h)
      (by decide)
  · exact e

theorem lenderRule_rejected (lenderId : Int) (interestType : String) (rng : RandSource)
    (p : EvaluationParams)
    (h : (lenderRule lenderId interestType rng p).1.ApplicationAcceptStatus
      ≠ LENDER_ACCEPT_APPLICATION) :
    (lenderRule lenderId interestType rng p).2 = rng ∧
    (lenderRule lenderId interestType rng p).1 =
      { BiddingDetails.zero with
         ApplicationNumber := p.ApplicationNumber
         RejectionReason := (lenderRule lenderId interestType rng p).1.RejectionReason } := by
  rcases lenderRule_cases lenderId interestType rng p with
    ⟨_, e⟩ | ⟨_, _, e⟩ | ⟨_, _, _, e⟩ | ⟨_, _, _, _, e⟩ | ⟨_, _, _, _, e⟩
  · rw [e]; exact ⟨rfl, rfl⟩
  · rw [e]; exact ⟨rfl, rfl⟩
  · rw [e]; exact ⟨rfl, rfl⟩
  · rw [e]; exact ⟨rfl, rfl⟩
  · rw [e] at h; exact absurd rfl h

theorem lenderRule_pricedAsSpecified (lenderId : Int) (interestType : String)
    (rng : RandSource) (p : EvaluationParams) :
    PricedAsSpecified p (lenderRule lenderId interestType rng p).1 := by
  intro h
  rw [lenderRule_accepted lenderId interestType rng p h]
  exact pricingBlock_toRat _ _ _

theorem lenderRule_acceptedQuoteShape (lenderId : Int) (interestType : String)
    (rng : RandSource) (p : EvaluationParams) :
    AcceptedQuoteShape interestType p (lenderRule lenderId interestType rng p).1 := by
  intro h
  rw [lenderRule_accepted lenderId interestType rng p h]
  exact ⟨rfl, rfl, rfl⟩

/-- Claim C1. Each of the four lenders decides by the fixed priority order:
credit score below 300, then age below 18, then an SSN that has not exactly 7
characters, then a monthly income below 1000, each with its own reason, and
accepts otherwise; the reason is non-empty exactly for a rejection. -/
theorem lenders_follow_rejection_rule (rng : RandSource) (p : EvaluationParams) :
    FollowsRejectionRule p (GetQuoteFromLender1 rng p).1 ∧
    FollowsRejectionRule p (GetQuoteFromLender2 rng p).1 ∧
    FollowsRejectionRule p (GetQuoteFromLender3 rng p).1 ∧
    FollowsRejectionRule p (GetQuoteFromLender4 rng p).1 :=
  ⟨lenderRule_followsRejectionRule 1 "simple" rng p,
   lenderRule_followsRejectionRule 2 "floating" rng p,
   lenderRule_followsRejectionRule 3 "simple" rng p,
   lenderRule_followsRejectionRule 4 "floating" rng p⟩

/-- Claim C2. With age at least 18, an SSN of exactly 7 characters, a monthly
income of at least 1000.00 and a credit score of at least 300, each of the
four lenders accepts. -/
theorem lenders_accept_eligible (rng : RandSource) (p : EvaluationParams)
    (hAge : 18 ≤ p.Age) (hSSN : p.SSN.length = 7)
    (hInc : Float64.le (Float64.ofNat 1000) p.MonthlyIncome = true)
    (hCS : 300 ≤ p.CreditScore) :
    (GetQuoteFromLender1 rng p).1.ApplicationAcceptStatus = LENDER_ACCEPT_APPLICATION ∧
    (GetQuoteFromLender2 rng p).1.ApplicationAcceptStatus = LENDER_ACCEPT_APPLICATION ∧
    (GetQuoteFromLender3 rng p).1.ApplicationAcceptStatus = LENDER_ACCEPT_APPLICATION ∧
    (GetQuoteFromLender4 rng p).1.ApplicationAcceptStatus = LENDER_ACCEPT_APPLICATION :=
  ⟨lenderRule_accept_of 1 "simple" rng p hCS hAge hSSN hInc,
   lenderRule_accept_of 2 "floating" rng p hCS hAge hSSN hInc,
   lenderRule_accept_of 3 "simple" rng p hCS hAge hSSN hInc,
   lenderRule_accept_of 4 "floating" rng p hCS hAge hSSN hInc⟩

/-- Witness of C2: the worked example meets the four conditions and is accepted
by the four lenders. -/
theorem lenders_accept_eligible_witness :
    (18 ≤ exampleParams.Age ∧ exampleParams.SSN.length = 7 ∧
      Float64.le (Float64.ofNat 1000) exampleParams.MonthlyIncome = true ∧
      300 ≤ exampleParams.CreditScore) ∧
    ((GetQuoteFromLender1 exampleRand exampleParams).1.ApplicationAcceptStatus
        = LENDER_ACCEPT_APPLICATION ∧
     (GetQuoteFromLender2 exampleRand exampleParams).1.ApplicationAcceptStatus
        = LENDER_ACCEPT_APPLICATION ∧
     (GetQuoteFromLender3 exampleRand exampleParams).1.ApplicationAcceptStatus
        = LENDER_ACCEPT_APPLICATION ∧
     (GetQuoteFromLender4 exampleRand exampleParams).1.ApplicationAcceptStatus
        = LENDER_ACCEPT_APPLICATION) :=
  ⟨⟨by decide, by decide, by decide, by decide⟩,
   lenders_accept_eligible exampleRand exampleParams
     (by decide) (by decide) (by decide) (by decide)⟩

/-- Claim C3. For parameters that a lender accepts, the interest rate of its
quote is exactly 5.0 plus the credit, age and income terms of the
specification; this holds for each of the four lenders. -/
theorem accepted_rate_is_specified (rng : RandSource) (p : EvaluationParams) :
    PricedAsSpecified p (GetQuoteFromLender1 rng p).1 ∧
    PricedAsSpecified p (GetQuoteFromLender2 rng p).1 ∧
    PricedAsSpecified p (GetQuoteFromLender3 rng p).1 ∧
    PricedAsSpecified p (GetQuoteFromLender4 rng p).1 :=
  ⟨lenderRule_pricedAsSpecified 1 "simple" rng p,
   lenderRule_pricedAsSpecified 2 "floating" rng p,
   lenderRule_pricedAsSpecified 3 "simple" rng p,
   lenderRule_pricedAsSpecified 4 "floating" rng p⟩
/-- Witness of C3: the worked example is accepted by lender 1 and priced by
the formula. -/
theorem accepted_rate_is_specified_witness :
    (GetQuoteFromLender1 exampleRand exampleParams).1.ApplicationAcceptStatus
      = LENDER_ACCEPT_APPLICATION ∧
    (GetQuoteFromLender1 exampleRand exampleParams).1.InterestRate.toRat
      = some (specInterestRate exampleParams) :=
  ⟨by decide, (accepted_rate_is_specified exampleRand exampleParams).1 (by decide)⟩

theorem specDeltaIncome_boundary :
    specDeltaIncome (Float64.ofNat 1000) = 0 ∧ specDeltaIncome (Float64.ofNat 3000) = 0 := by
  have a1 : Float64.lt (Float64.ofNat 1000) (Float64.ofNat 1000) = false := by decide
  have a2 : Float64.lt (Float64.ofNat 3000) (Float64.ofNat 1000) = false := by decide
  have a3 : Float64.lt (Float64.ofNat 3000) (Float64.ofNat 3000) = false := by decide
  constructor <;> simp [specDeltaIncome, a1, a2, a3]

theorem lenderRule_strictlyOpenBrackets (lenderId : Int) (interestType : String) :
    StrictlyOpenBrackets (lenderRule lenderId interestType) := by
  refine ⟨?_, ?_, ?_⟩
  · intro rng p h
    have hr := lenderRule_pricedAsSpecified lenderId interestType rng p h
    rw [hr]
    refine ⟨?_, ?_, ?_, ?_, ?_⟩
    · intro hcs
      simp [specInterestRate, specDeltaCredit, hcs]
    · intro hcs
      simp [specInterestRate, specDeltaCredit, hcs]
    · rintro (hcs | hcs | hcs) <;> simp [specInterestRate, specDeltaCredit, hcs]
    · rintro (ha | ha | ha) <;> simp [specInterestRate, specDeltaAge, ha]
    · rintro (hi | hi) <;>
        simp [specInterestRate, hi, specDeltaIncome_boundary.1, specDeltaIncome_boundary.2]
  · intro rng rng2 p p2 h h2 hcs hcs2 hAge hInc
    refine ⟨specInterestRate p, lenderRule_pricedAsSpecified lenderId interestType rng p h, ?_⟩
    rw [lenderRule_pricedAsSpecified lenderId interestType rng2 p2 h2]
    simp only [specInterestRate, hcs, hcs2, hAge, hInc, specDeltaCredit]
    norm_num
    ring
  · intro rng p hcs hAge hInc hSSN
    have hacc := lenderRule_accept_of lenderId interestType rng p (by omega) (by omega) hSSN
      (by rw [hInc]; decide)
    refine ⟨hacc, ?_⟩
    rw [lenderRule_pricedAsSpecified lenderId interestType rng p hacc]
    simp [specInterestRate, specDeltaCredit, specDeltaAge, hcs, hAge, hInc,
      specDeltaIncome_boundary.1]

theorem lenderRule_workedExample (lenderId : Int) (interestType : String)
    (rng : RandSource) :
    (lenderRule lenderId interestType rng exampleParams).1.ApplicationAcceptStatus
      = LENDER_ACCEPT_APPLICATION ∧
    (lenderRule lenderId interestType rng exampleParams).1.InterestRate.toRat
      = some (23 / 4) ∧
    (lenderRule lenderId interestType rng exampleParams).1.InterestType = interestType :=
  ⟨rfl, toRat_of_quarters _ 23 _ rfl (by norm_num), rfl⟩

/-- Claim C4. The pricing brackets are strictly open, for each of the four
lenders: among accepted parameters a credit score of 500 adds nothing and 501
adds 0.25 (the rate at 501 is the rate at 500 plus 0.25 when age and income are
the same), every boundary value (credit score 300, 500, 700; age 18, 30, 50;
monthly income 1000, 3000) adds nothing for its factor, and credit score 500,
age 30, income 1000 with a 7-character SSN is accepted at exactly 5.0. -/
theorem brackets_strictly_open :
    StrictlyOpenBrackets GetQuoteFromLender1 ∧ StrictlyOpenBrackets GetQuoteFromLender2 ∧
    StrictlyOpenBrackets GetQuoteFromLender3 ∧ StrictlyOpenBrackets GetQuoteFromLender4 :=
  ⟨lenderRule_strictlyOpenBrackets 1 "simple", lenderRule_strictlyOpenBrackets 2 "floating",
   lenderRule_strictlyOpenBrackets 3 "simple", lenderRule_strictlyOpenBrackets 4 "floating"⟩

/-- Claim C5. An accepted quote sanctions the requested loan amount, is not a
winning bid, and carries the interest type of its lender: simple for lenders 1
and 3, floating for lenders 2 and 4. -/
theorem accepted_quote_fixed_fields (rng : RandSource) (p : EvaluationParams) :
    AcceptedQuoteShape "simple" p (GetQuoteFromLender1 rng p).1 ∧
    AcceptedQuoteShape "floating" p (GetQuoteFromLender2 rng p).1 ∧
    AcceptedQuoteShape "simple" p (GetQuoteFromLender3 rng p).1 ∧
    AcceptedQuoteShape "floating" p (GetQuoteFromLender4 rng p).1 :=
  ⟨lenderRule_acceptedQuoteShape 1 "simple" rng p,
   lenderRule_acceptedQuoteShape 2 "floating" rng p,
   lenderRule_acceptedQuoteShape 3 "simple" rng p,
   lenderRule_acceptedQuoteShape 4 "floating" rng p⟩

/-- Witness of C5: the worked example is accepted by lenders 1 and 2, with the
requested amount, no winning bid, and interest types simple and floating. -/
theorem accepted_quote_fixed_fields_witness :
    ((GetQuoteFromLender1 exampleRand exampleParams).1.ApplicationAcceptStatus
        = LENDER_ACCEPT_APPLICATION ∧
      (GetQuoteFromLender1 exampleRand exampleParams).1.SanctionedAmount
        = exampleParams.LoanAmount ∧
      (GetQuoteFromLender1 exampleRand exampleParams).1.IsWinningBid = false ∧
      (GetQuoteFromLender1 exampleRand exampleParams).1.InterestType = "simple") ∧
    ((GetQuoteFromLender2 exampleRand exampleParams).1.ApplicationAcceptStatus
        = LENDER_ACCEPT_APPLICATION ∧
      (GetQuoteFromLender2 exampleRand exampleParams).1.SanctionedAmount
        = exampleParams.LoanAmount ∧
      (GetQuoteFromLender2 exampleRand exampleParams).1.IsWinningBid = false ∧
      (GetQuoteFromLender2 exampleRand exampleParams).1.InterestType = "floating") :=
  ⟨⟨by decide, (accepted_quote_fixed_fields exampleRand exampleParams).1 (by decide)⟩,
   ⟨by decide, (accepted_quote_fixed_fields exampleRand exampleParams).2.1 (by decide)⟩⟩

/-- Claim C6. The worked example (A100: loan amount 20000, SSN 1234567, age 35,
monthly income 4000, credit score 650) is accepted by the four lenders, each at
the rate 5.75, with interest types simple, floating, simple, floating. -/
theorem worked_example_A100 (rng : RandSource) :
    ((GetQuoteFromLender1 rng exampleParams).1.ApplicationAcceptStatus
        = LENDER_ACCEPT_APPLICATION ∧
      (GetQuoteFromLender1 rng exampleParams).1.InterestRate.toRat = some (23 / 4) ∧
      (GetQuoteFromLender1 rng exampleParams).1.InterestType = "simple") ∧
    ((GetQuoteFromLender2 rng exampleParams).1.ApplicationAcceptStatus
        = LENDER_ACCEPT_APPLICATION ∧
      (GetQuoteFromLender2 rng exampleParams).1.InterestRate.toRat = some (23 / 4) ∧
      (GetQuoteFromLender2 rng exampleParams).1.InterestType = "floating") ∧
    ((GetQuoteFromLender3 rng exampleParams).1.ApplicationAcceptStatus
        = LENDER_ACCEPT_APPLICATION ∧
      (GetQuoteFromLender3 rng exampleParams).1.InterestRate.toRat = some (23 / 4) ∧
      (GetQuoteFromLender3 rng exampleParams).1.InterestType = "simple") ∧
    ((GetQuoteFromLender4 rng exampleParams).1.ApplicationAcceptStatus
        = LENDER_ACCEPT_APPLICATION ∧
      (GetQuoteFromLender4 rng exampleParams).1.InterestRate.toRat = some (23 / 4) ∧
      (GetQuoteFromLender4 rng exampleParams).1.InterestType = "floating") :=
  ⟨lenderRule_workedExample 1 "simple" rng, lenderRule_workedExample 2 "floating" rng,
   lenderRule_workedExample 3 "simple" rng, lenderRule_workedExample 4 "floating" rng⟩

/-! ### Serialization and the private functions -/

theorem jsonMarshal_bytes (a : LoanApplication) (b : Bytes)
    (h : (jsonMarshal a).1 = some b) : b = .json a := by
  by_cases hm : a.marshalable = true
  · simp only [jsonMarshal, hm, if_true, Option.some.injEq] at h
    exact h.symm
  · simp [jsonMarshal, hm] at h

theorem jsonMarshal_ok (a : LoanApplication) (h : (jsonMarshal a).2 = none) :
    (jsonMarshal a).1 = some (.json a) := by
  by_cases hm : a.marshalable = true
  · simp [jsonMarshal, hm]
  · simp [jsonMarshal, hm] at h

theorem jsonMarshal_err (a : LoanApplication) (h : (jsonMarshal a).2 ≠ none) :
    (jsonMarshal a).1 = none := by
  by_cases hm : a.marshalable = true
  · simp [jsonMarshal, hm] at h
  · simp [jsonMarshal, hm]

theorem SaveApplicationDetails_fields (stub : ChaincodeStub) (a : LoanApplication) :
    (SaveApplicationDetails stub a).1.Quotations = a.Quotations ∧
    (SaveApplicationDetails stub a).1.Status = a.Status ∧
    (SaveApplicationDetails stub a).1.ApplicationNumber = a.ApplicationNumber ∧
    (SaveApplicationDetails stub a).1.LoanAmount = a.LoanAmount ∧
    (SaveApplicationDetails stub a).1.MonthlyIncome = a.MonthlyIncome := by
  unfold SaveApplicationDetails
  dsimp only
  split_ifs <;> exact ⟨rfl, rfl, rfl, rfl, rfl⟩

theorem SaveApplicationDetails_state (stub : ChaincodeStub) (a : LoanApplication)
    (key : String) :
    (SaveApplicationDetails stub a).2.state key = stub.state key ∨
    (SaveApplicationDetails stub a).2.state key = (jsonMarshal a).1 := by
  unfold SaveApplicationDetails ChaincodeStub.PutState
  dsimp only
  by_cases hp : stub.putStateErr a.ApplicationNumber (jsonMarshal a).1 = true
  · simp [hp]
  · by_cases hk : key = a.ApplicationNumber
    · right; simp [hp, hk]
    · left; simp [hp, hk]

/-- What a successful creation returns: the encoding of an application in
status QuotationsReceived whose quotations are the quotes of lenders 1 to 4,
in this order, for one set of parameters, the random source being threaded
from one lender to the next. -/
theorem CreateLoanApplication_success (ParseFloat : String → Float64 × Bool)
    (stub : ChaincodeStub) (rng : RandSource) (args : List String)
    (r : Response × ChaincodeStub × RandSource)
    (h : CreateLoanApplication ParseFloat stub rng args = some r)
    (hs : r.1.err = none) :
    ∃ (a : LoanApplication) (p : EvaluationParams),
      r.1.bytes = some (.json a) ∧ a.Status = STATE_QUOTATIONS_RECEIVED ∧
      a.Quotations =
        [(GetQuoteFromLender1 rng p).1,
         (GetQuoteFromLender2 (GetQuoteFromLender1 rng p).2 p).1,
         (GetQuoteFromLender3 (GetQuoteFromLender2 (GetQuoteFromLender1 rng p).2 p).2 p).1,
         (GetQuoteFromLender4 (GetQuoteFromLender3
           (GetQuoteFromLender2 (GetQuoteFromLender1 rng p).2 p).2 p).2 p).1] := by
  unfold CreateLoanApplication at h
  split at h
  next => exact absurd h (by simp)
  next arg0 rest =>
    split_ifs at h
    · simp only [Option.some.injEq] at h
      subst h
      exact absurd hs (by simp)
    · simp only [Option.some.injEq] at h
      subst h
      exact absurd hs (by simp)
    · split at h
      next make model arg3 ssn arg5 arg6 arg7 tl =>
        simp only [Option.some.injEq] at h
        subst h
        dsimp only at hs ⊢
        refine ⟨_, { ApplicationNumber := arg0, LoanAmount := (ParseFloat arg3).1,
                     SSN := ssn, Age := (Atoi arg5).1,
                     MonthlyIncome := (ParseFloat arg6).1,
                     CreditScore := (Atoi arg7).1 }, jsonMarshal_ok _ hs, ?_, ?_⟩
        · rw [(SaveApplicationDetails_fields _ _).2.1]
        · rw [(SaveApplicationDetails_fields _ _).1]
          rfl
      next => exact absurd h (by simp)
theorem lenderRule_of_eligible (lenderId : Int) (interestType : String) (rng : RandSource)
    (p : EvaluationParams) (h : Eligible p) :
    lenderRule lenderId interestType rng p =
      ({ ApplicationNumber := p.ApplicationNumber
         BiddingNumber := (GenerateBiddingNumber rng).1
         LenderId := lenderId
         SanctionedAmount := p.LoanAmount
         InterestType := interestType
         InterestRate := pricingBlock p.CreditScore p.Age p.MonthlyIncome
         ApplicationAcceptStatus := LENDER_ACCEPT_APPLICATION
         RejectionReason := ""
         IsWinningBid := false }, (GenerateBiddingNumber rng).2) := by
  obtain ⟨h1, h2, h3, h4⟩ := h
  rcases lenderRule_cases lenderId interestType rng p with
    ⟨c, _⟩ | ⟨_, c, _⟩ | ⟨_, _, c, _⟩ | ⟨_, _, _, c, _⟩ | ⟨_, _, _, _, e⟩
  · exact absurd c h1
  · exact absurd c h2
  · exact absurd h3 c
  · rw [h4] at c; exact absurd c (by simp)
  · exact e

theorem lenderRule_of_not_eligible (lenderId : Int) (interestType : String)
    (rng : RandSource) (p : EvaluationParams) (h : ¬ Eligible p) :
    (lenderRule lenderId interestType rng p).2 = rng ∧
    (lenderRule lenderId interestType rng p).1.ApplicationAcceptStatus
      = LENDER_REJECT_APPLICATION ∧
    (lenderRule lenderId interestType rng p).1.BiddingNumber = 0 ∧
    (lenderRule lenderId interestType rng p).1.LenderId = 0 ∧
    (lenderRule lenderId interestType rng p).1.IsWinningBid = false ∧
    (lenderRule lenderId interestType rng p).1.marshalable = true := by
  rcases lenderRule_cases lenderId interestType rng p with
    ⟨_, e⟩ | ⟨_, _, e⟩ | ⟨_, _, _, e⟩ | ⟨_, _, _, _, e⟩ | ⟨h1, h2, h3, h4, _⟩
  · rw [e]; exact ⟨rfl, rfl, rfl, rfl, rfl, rfl⟩
  · rw [e]; exact ⟨rfl, rfl, rfl, rfl, rfl, rfl⟩
  · rw [e]; exact ⟨rfl, rfl, rfl, rfl, rfl, rfl⟩
  · rw [e]; exact ⟨rfl, rfl, rfl, rfl, rfl, rfl⟩
  · exact absurd ⟨h1, h2, h3, h4⟩ h

/-- Claim C7, as amended. A successful `CreateLoanApplication` returns an
application with exactly 4 quotations and status QuotationsReceived. Either
the four lenders reject, and then every quotation carries bidding number 0; or
the four lenders accept, and then the bidding numbers are the next four draws
of the random source, each reduced modulo 100000, in lender order. -/
theorem create_quotations_and_status (ParseFloat : String → Float64 × Bool)
    (stub : ChaincodeStub) (rng : RandSource) (args : List String)
    (r : Response × ChaincodeStub × RandSource)
    (h : CreateLoanApplication ParseFloat stub rng args = some r)
    (hs : r.1.err = none) :
    ∃ a : LoanApplication, r.1.bytes = some (.json a) ∧
      a.Quotations.length = 4 ∧ a.Status = STATE_QUOTATIONS_RECEIVED ∧
      ((∀ q ∈ a.Quotations,
          q.ApplicationAcceptStatus = LENDER_REJECT_APPLICATION ∧ q.BiddingNumber = 0) ∨
       ((∀ q ∈ a.Quotations, q.ApplicationAcceptStatus = LENDER_ACCEPT_APPLICATION) ∧
          a.Quotations.map (fun q => q.BiddingNumber) =
            [((rng.draws 0 % 100000 : Nat) : Int), ((rng.draws 1 % 100000 : Nat) : Int),
             ((rng.draws 2 % 100000 : Nat) : Int), ((rng.draws 3 % 100000 : Nat) : Int)])) := by
  obtain ⟨a, p, hb, hst, hq⟩ := CreateLoanApplication_success ParseFloat stub rng args r h hs
  refine ⟨a, hb, by rw [hq]; rfl, hst, ?_⟩
  rw [hq]
  simp only [GetQuoteFromLender1_eq, GetQuoteFromLender2_eq, GetQuoteFromLender3_eq,
    GetQuoteFromLender4_eq]
  by_cases he : Eligible p
  · right
    simp only [lenderRule_of_eligible _ _ _ p he]
    refine ⟨?_, rfl⟩
    intro q hq
    simp only [List.mem_cons, List.mem_singleton, List.not_mem_nil, or_false] at hq
    rcases hq with rfl | rfl | rfl | rfl <;> rfl
  · left
    intro q hq
    simp only [(lenderRule_of_not_eligible _ _ _ p he).1] at hq
    simp only [List.mem_cons, List.mem_singleton, List.not_mem_nil, or_false] at hq
    rcases hq with rfl | rfl | rfl | rfl <;>
      exact ⟨(lenderRule_of_not_eligible _ _ _ p he).2.1,
        (lenderRule_of_not_eligible _ _ _ p he).2.2.1⟩
/-! ### The invoke functions, branch by branch -/

theorem GetApplicationDetails_zero (stub : ChaincodeStub) (applicationNumber : String) :
    GetApplicationDetails stub applicationNumber = LoanApplication.zero := by
  unfold GetApplicationDetails
  dsimp only
  split
  · split_ifs <;> rfl
  · rfl

/-- The three ways in which `CreateLoanApplication` returns. -/
theorem CreateLoanApplication_cases (ParseFloat : String → Float64 × Bool)
    (stub : ChaincodeStub) (rng : RandSource) (args : List String)
    (r : Response × ChaincodeStub × RandSource)
    (h : CreateLoanApplication ParseFloat stub rng args = some r) :
    (args.head? = some "" ∧
      r = ({ bytes := none, err := some (.New "Invalid application") }, stub, rng)) ∨
    (∃ arg0, args.head? = some arg0 ∧ arg0 ≠ "" ∧ (stub.GetState arg0).1.isSome = true ∧
      r = ({ bytes := none, err := some (.New "Application already exist") }, stub, rng)) ∨
    (∃ arg0 make model arg3 ssn arg5 arg6 arg7 tl,
      args = arg0 :: make :: model :: arg3 :: ssn :: arg5 :: arg6 :: arg7 :: tl ∧
      arg0 ≠ "" ∧ (stub.GetState arg0).1.isSome = false ∧
      r =
        (let s1 := SaveApplicationDetails stub
            (createdApplication ParseFloat arg0 make model arg3 ssn arg5 arg6 arg7)
         let quoted := panelQuotes rng (createdParams ParseFloat arg0 arg3 ssn arg5 arg6 arg7)
         let s2 := SaveApplicationDetails s1.2
            { s1.1 with Quotations := quoted.1, Status := STATE_QUOTATIONS_RECEIVED }
         ({ bytes := (jsonMarshal s2.1).1, err := (jsonMarshal s2.1).2 }, s2.2, quoted.2))) := by
  unfold CreateLoanApplication at h
  split at h
  next => exact absurd h (by simp)
  next arg0 rest =>
    split_ifs at h with h0 h1
    · left
      exact ⟨by rw [h0]; rfl, (Option.some.inj h).symm⟩
    · right; left
      exact ⟨arg0, rfl, h0, h1, (Option.some.inj h).symm⟩
    · split at h
      next make model arg3 ssn arg5 arg6 arg7 tl =>
        right; right
        exact ⟨arg0, make, model, arg3, ssn, arg5, arg6, arg7, tl, rfl, h0,
          by simpa using h1, (Option.some.inj h).symm⟩
      next => exact absurd h (by simp)

/-- The three ways in which `ConfirmBid` returns. -/
theorem ConfirmBid_cases (stub : ChaincodeStub) (args : List String)
    (r : Response × ChaincodeStub) (h : ConfirmBid stub args = some r) :
    (∃ arg0, args.head? = some arg0 ∧ (stub.GetState arg0).2 = true ∧
      r = ({ bytes := none,
             err := some (.New "Error while getting application details") }, stub)) ∨
    (∃ arg0, args.head? = some arg0 ∧ (stub.GetState arg0).2 = false ∧
      (stub.GetState arg0).1.isSome = true ∧
      r = ({ bytes := none, err := some (.New "Invalid application number") }, stub)) ∨
    (∃ arg0 arg1 arg2 tl, args = arg0 :: arg1 :: arg2 :: tl ∧
      (stub.GetState arg0).2 = false ∧ (stub.GetState arg0).1.isSome = false ∧
      r =
        (let s := SaveApplicationDetails stub
            { LoanApplication.zero with Status := (Atoi arg2).1 }
         ({ bytes := (jsonMarshal s.1).1, err := (jsonMarshal s.1).2 }, s.2))) := by
  unfold ConfirmBid at h
  split at h
  next => exact absurd h (by simp)
  next arg0 rest =>
    dsimp only at h
    split_ifs at h with h0 h1
    · left
      exact ⟨arg0, rfl, h0, (Option.some.inj h).symm⟩
    · right; left
      exact ⟨arg0, rfl, by simpa using h0, h1, (Option.some.inj h).symm⟩
    · split at h
      next arg1 arg2 tl =>
        right; right
        refine ⟨arg0, arg1, arg2, tl, rfl, by simpa using h0, by simpa using h1, ?_⟩
        rw [GetApplicationDetails_zero] at h
        exact (Option.some.inj h).symm
      next => exact absurd h (by simp)

/-! ### Creation -/

/-- Witness of C7: the worked example is created successfully. -/
theorem create_quotations_and_status_witness :
    ∃ r, CreateLoanApplication parseFloatNumeral exampleStub exampleRand exampleArgs = some r ∧
      r.1.err = none ∧
      ∃ a : LoanApplication, r.1.bytes = some (.json a) ∧
        a.Quotations.length = 4 ∧ a.Status = STATE_QUOTATIONS_RECEIVED ∧
        ((∀ q ∈ a.Quotations,
            q.ApplicationAcceptStatus = LENDER_REJECT_APPLICATION ∧ q.BiddingNumber = 0) ∨
         ((∀ q ∈ a.Quotations, q.ApplicationAcceptStatus = LENDER_ACCEPT_APPLICATION) ∧
            a.Quotations.map (fun q => q.BiddingNumber) =
              [((exampleRand.draws 0 % 100000 : Nat) : Int),
               ((exampleRand.draws 1 % 100000 : Nat) : Int),
               ((exampleRand.draws 2 % 100000 : Nat) : Int),
               ((exampleRand.draws 3 % 100000 : Nat) : Int)])) := by
  have hsome : (CreateLoanApplication parseFloatNumeral exampleStub exampleRand
      exampleArgs).isSome = true := by decide
  obtain ⟨r, hr⟩ := Option.isSome_iff_exists.mp hsome
  have herr : (CreateLoanApplication parseFloatNumeral exampleStub exampleRand
      exampleArgs).map (fun r => r.1.err) = some none := by decide
  rw [hr] at herr
  have hs : r.1.err = none := Option.some.inj herr
  exact ⟨r, hr, hs,
    create_quotations_and_status parseFloatNumeral exampleStub exampleRand exampleArgs r hr hs⟩

/-- Counterexample to C7 as stated. Creating the worked example with a credit
score of 200 succeeds and returns 4 quotations in status QuotationsReceived,
all rejected, whose bidding numbers are 0, 0, 0, 0: they are not pairwise
distinct. -/
theorem create_rejected_bidding_numbers_coincide :
    (CreateLoanApplication parseFloatNumeral exampleStub exampleRand rejectedArgs).map
        (fun r => r.1) = some { bytes := some (.json rejectedApplication), err := none } ∧
    rejectedApplication.Quotations.length = 4 ∧
    rejectedApplication.Status = STATE_QUOTATIONS_RECEIVED ∧
    rejectedApplication.Quotations.map (fun q => q.BiddingNumber) = [0, 0, 0, 0] ∧
    ¬ (rejectedApplication.Quotations.map (fun q => q.BiddingNumber)).Nodup := by
  refine ⟨by decide, by decide, by decide, by decide, by decide⟩

/-- The draws of the random source are not kept apart: when the source yields
the same number four times, the four accepted quotations of the worked example
carry the same bidding number. -/
theorem create_accepted_bidding_numbers_may_coincide :
    (CreateLoanApplication parseFloatNumeral exampleStub constantRand exampleArgs).map
        (fun r => r.1) = some { bytes := some (.json collidingApplication), err := none } ∧
    collidingApplication.Quotations.map (fun q => q.ApplicationAcceptStatus) = [1, 1, 1, 1] ∧
    collidingApplication.Quotations.map (fun q => q.BiddingNumber) = [7, 7, 7, 7] := by
  refine ⟨by decide, by decide, by decide⟩

/-! ### Confirmation -/

/-- Claim C8, at the failing input. The world state holds application A100 in
status QuotationsReceived with quotations numbered 11, 22, 33, 44;
`ConfirmBid` for A100, bidding number 11 and target status BidAccepted returns
no application but the error "Invalid application number", and the value held
under A100 stays as it was, without a winning bid. -/
theorem confirmBid_valid_bid_fails :
    storedStub.state "A100" = some (.json storedApplication) ∧
    storedApplication.Status = STATE_QUOTATIONS_RECEIVED ∧
    storedApplication.Quotations.map (fun q => q.BiddingNumber) = [11, 22, 33, 44] ∧
    (ConfirmBid storedStub ["A100", "11", "2"]).map (fun r => r.1)
      = some { bytes := none, err := some (.New "Invalid application number") } ∧
    (ConfirmBid storedStub ["A100", "11", "2"]).map (fun r => r.2.state "A100")
      = some (some (.json storedApplication)) ∧
    storedApplication.Quotations.map (fun q => q.IsWinningBid)
      = [false, false, false, false] := by
  refine ⟨by decide, by decide, by decide, by decide, by decide, by decide⟩

/-! ### No winning bid is ever recorded -/

theorem noWinningBid_atMostOne (a : LoanApplication) (h : NoWinningBid a) :
    AtMostOneWinningBid a := by
  unfold AtMostOneWinningBid
  have hnil : a.Quotations.filter (fun q => q.IsWinningBid) = [] := by
    apply List.filter_eq_nil_iff.mpr
    intro q hq
    simp [h q hq]
  rw [hnil]
  exact Nat.zero_le 1

theorem lenderRule_not_winning (lenderId : Int) (interestType : String) (rng : RandSource)
    (p : EvaluationParams) : (lenderRule lenderId interestType rng p).1.IsWinningBid = false := by
  rcases lenderRule_cases lenderId interestType rng p with
    ⟨_, e⟩ | ⟨_, _, e⟩ | ⟨_, _, _, e⟩ | ⟨_, _, _, _, e⟩ | ⟨_, _, _, _, e⟩ <;>
  rw [e] <;> rfl

theorem panelQuotes_not_winning (rng : RandSource) (p : EvaluationParams) :
    ∀ q ∈ (panelQuotes rng p).1, q.IsWinningBid = false := by
  intro q hq
  simp only [panelQuotes, List.mem_cons, List.mem_singleton, List.not_mem_nil, or_false] at hq
  rcases hq with rfl | rfl | rfl | rfl
  · exact lenderRule_not_winning 1 "simple" _ _
  · exact lenderRule_not_winning 2 "floating" _ _
  · exact lenderRule_not_winning 3 "simple" _ _
  · exact lenderRule_not_winning 4 "floating" _ _

theorem SaveApplicationDetails_withoutWinner (stub : ChaincodeStub) (a : LoanApplication)
    (hs : StateWithoutWinner stub.state) (ha : NoWinningBid a) :
    StateWithoutWinner (SaveApplicationDetails stub a).2.state ∧
    NoWinningBid (SaveApplicationDetails stub a).1 := by
  constructor
  · intro key b hb
    rcases SaveApplicationDetails_state stub a key with e | e
    · rw [e] at hb
      exact hs key b hb
    · rw [e] at hb
      have := jsonMarshal_bytes a _ hb
      rw [Bytes.json.injEq] at this
      rw [this]
      exact ha
  · unfold NoWinningBid
    rw [(SaveApplicationDetails_fields stub a).1]
    exact ha

theorem CreateLoanApplication_withoutWinner (ParseFloat : String → Float64 × Bool)
    (stub : ChaincodeStub) (rng : RandSource) (args : List String)
    (r : Response × ChaincodeStub × RandSource)
    (h : CreateLoanApplication ParseFloat stub rng args = some r)
    (hs : StateWithoutWinner stub.state) :
    StateWithoutWinner r.2.1.state ∧ ∀ a, r.1.bytes = some (.json a) → NoWinningBid a := by
  rcases CreateLoanApplication_cases ParseFloat stub rng args r h with
    ⟨_, e⟩ | ⟨_, _, _, _, e⟩ | ⟨arg0, make, model, arg3, ssn, arg5, arg6, arg7, _, _, _, _, e⟩
  · subst e
    exact ⟨hs, fun a ha => absurd ha (by simp)⟩
  · subst e
    exact ⟨hs, fun a ha => absurd ha (by simp)⟩
  · subst e
    dsimp only
    have h1 := SaveApplicationDetails_withoutWinner stub
      (createdApplication ParseFloat arg0 make model arg3 ssn arg5 arg6 arg7) hs
      (by intro q hq; exact absurd hq (by simp [createdApplication]))
    have h2 := SaveApplicationDetails_withoutWinner
      (SaveApplicationDetails stub
        (createdApplication ParseFloat arg0 make model arg3 ssn arg5 arg6 arg7)).2
      { (SaveApplicationDetails stub
          (createdApplication ParseFloat arg0 make model arg3 ssn arg5 arg6 arg7)).1 with
        Quotations :=
          (panelQuotes rng (createdParams ParseFloat arg0 arg3 ssn arg5 arg6 arg7)).1,
        Status := STATE_QUOTATIONS_RECEIVED }
      h1.1 (panelQuotes_not_winning rng _)
    refine ⟨h2.1, ?_⟩
    intro a ha
    have := jsonMarshal_bytes _ _ ha
    rw [Bytes.json.injEq] at this
    rw [this]
    exact h2.2

theorem ConfirmBid_withoutWinner (stub : ChaincodeStub) (args : List String)
    (r : Response × ChaincodeStub) (h : ConfirmBid stub args = some r)
    (hs : StateWithoutWinner stub.state) :
    StateWithoutWinner r.2.state ∧ ∀ a, r.1.bytes = some (.json a) → NoWinningBid a := by
  rcases ConfirmBid_cases stub args r h with
    ⟨_, _, _, e⟩ | ⟨_, _, _, _, e⟩ | ⟨_, _, arg2, _, _, _, _, e⟩
  · subst e
    exact ⟨hs, fun a ha => absurd ha (by simp)⟩
  · subst e
    exact ⟨hs, fun a ha => absurd ha (by simp)⟩
  · subst e
    dsimp only
    have h1 := SaveApplicationDetails_withoutWinner stub
      { LoanApplication.zero with Status := (Atoi arg2).1 } hs
      (by intro q hq; exact absurd hq (by simp [LoanApplication.zero]))
    refine ⟨h1.1, ?_⟩
    intro a ha
    have := jsonMarshal_bytes _ _ ha
    rw [Bytes.json.injEq] at this
    rw [this]
    exact h1.2

theorem reachable_withoutWinner (ParseFloat : String → Float64 × Bool)
    (state : String → Option Bytes) (h : Reachable ParseFloat state) :
    StateWithoutWinner state := by
  induction h with
  | empty => intro key a ha; exact absurd ha (by simp)
  | create stub rng args r _ hc ih =>
    exact (CreateLoanApplication_withoutWinner ParseFloat stub rng args r hc ih).1
  | confirm stub args r _ hc ih =>
    exact (ConfirmBid_withoutWinner stub args r hc ih).1

/-- Claim C9. In every world state reachable from the empty one by
`CreateLoanApplication` and `ConfirmBid` invocations, every stored application
has at most one winning bid, and so has every application that a further
`CreateLoanApplication` or `ConfirmBid` returns. -/
theorem at_most_one_winning_bid (ParseFloat : String → Float64 × Bool)
    (state : String → Option Bytes) (hr : Reachable ParseFloat state) :
    (∀ key a, state key = some (.json a) → AtMostOneWinningBid a) ∧
    (∀ stub rng args r a, stub.state = state →
      CreateLoanApplication ParseFloat stub rng args = some r →
      r.1.bytes = some (.json a) → AtMostOneWinningBid a) ∧
    (∀ stub args r a, stub.state = state → ConfirmBid stub args = some r →
      r.1.bytes = some (.json a) → AtMostOneWinningBid a) := by
  have hs := reachable_withoutWinner ParseFloat state hr
  refine ⟨fun key a ha => noWinningBid_atMostOne a (hs key a ha), ?_, ?_⟩
  · intro stub rng args r a hst hc ha
    exact noWinningBid_atMostOne a
      ((CreateLoanApplication_withoutWinner ParseFloat stub rng args r hc (hst ▸ hs)).2 a ha)
  · intro stub args r a hst hc ha
    exact noWinningBid_atMostOne a
      ((ConfirmBid_withoutWinner stub args r hc (hst ▸ hs)).2 a ha)

theorem storedStub_reachable : Reachable parseFloatNumeral storedStub.state := by
  have hsome : (CreateLoanApplication parseFloatNumeral exampleStub exampleRand
      exampleArgs).isSome = true := by decide
  obtain ⟨r, hr⟩ := Option.isSome_iff_exists.mp hsome
  have hst : storedStub.state = r.2.1.state := by
    unfold storedStub
    rw [hr]
  rw [hst]
  exact Reachable.create exampleStub exampleRand exampleArgs r Reachable.empty hr

/-- Witness of C9: the state left by creating the worked example is reachable,
holds application A100 with its four quotations, and that application has at
most one winning bid. -/
theorem at_most_one_winning_bid_witness :
    Reachable parseFloatNumeral storedStub.state ∧
    storedStub.state "A100" = some (.json storedApplication) ∧
    storedApplication.Quotations.length = 4 ∧
    AtMostOneWinningBid storedApplication :=
  ⟨storedStub_reachable, by decide, by decide,
    (at_most_one_winning_bid parseFloatNumeral storedStub.state storedStub_reachable).1
      "A100" storedApplication (by decide)⟩

/-! ### Confirmation checks no bidding number -/

theorem confirmBidLoop_no_match (biddingNumber bidStatus : Int) (qs : List BiddingDetails)
    (h : ∀ q ∈ qs, q.BiddingNumber ≠ biddingNumber) :
    confirmBidLoop biddingNumber bidStatus qs = qs := by
  induction qs with
  | nil => rfl
  | cons q qs ih =>
    unfold confirmBidLoop
    rw [if_neg (fun hc => h q (List.mem_cons_self q qs) hc.1),
      ih (fun x hx => h x (List.mem_cons_of_mem q hx))]

theorem SaveApplicationDetails_marshalable (stub : ChaincodeStub) (a : LoanApplication) :
    (SaveApplicationDetails stub a).1.marshalable = a.marshalable := by
  unfold LoanApplication.marshalable
  rw [(SaveApplicationDetails_fields stub a).1, (SaveApplicationDetails_fields stub a).2.2.2.1,
    (SaveApplicationDetails_fields stub a).2.2.2.2]

/-- Counterexample to C10 as stated. The world state holds application A100 in
status QuotationsReceived with quotations numbered 11, 22, 33, 44. `ConfirmBid`
with the bidding number 99999, which matches none of them, returns the error
"Invalid application number": the very response it returns for the bidding
number 11, which matches. The error is the one of the existence check, not an
error about the bid. -/
theorem confirmBid_unknown_bid_error_is_not_about_the_bid :
    storedStub.state "A100" = some (.json storedApplication) ∧
    storedApplication.Status = STATE_QUOTATIONS_RECEIVED ∧
    storedApplication.Quotations.map (fun q => q.BiddingNumber) = [11, 22, 33, 44] ∧
    (ConfirmBid storedStub ["A100", "99999", "2"]).map (fun r => r.1)
      = some { bytes := none, err := some (.New "Invalid application number") } ∧
    (ConfirmBid storedStub ["A100", "99999", "2"]).map (fun r => r.1)
      = (ConfirmBid storedStub ["A100", "11", "2"]).map (fun r => r.1) := by
  refine ⟨by decide, by decide, by decide, by decide, by decide⟩

/-- Claim C10, as amended. `ConfirmBid` checks no bidding number. Whenever it
returns an error, the error is "Error while getting application details" or
"Invalid application number", no bytes are returned, the stub (so the value
stored under the application number) is as before the call, and the call
returns the same with any other bidding number in its place. A bidding number
that matches no quotation makes the winner-marking loop leave the quotations as
they are. -/
theorem confirmBid_checks_no_bidding_number (stub : ChaincodeStub) (args : List String)
    (r : Response × ChaincodeStub) (h : ConfirmBid stub args = some r)
    (he : r.1.err ≠ none) :
    (r.2 = stub ∧ r.1.bytes = none ∧
      (r.1.err = some (.New "Error while getting application details") ∨
        r.1.err = some (.New "Invalid application number")) ∧
      (∀ arg0 arg1 rest other, args = arg0 :: arg1 :: rest →
        ConfirmBid stub (arg0 :: other :: rest) = some r)) ∧
    (∀ (biddingNumber bidStatus : Int) (qs : List BiddingDetails),
      (∀ q ∈ qs, q.BiddingNumber ≠ biddingNumber) →
        confirmBidLoop biddingNumber bidStatus qs = qs) := by
  refine ⟨?_, confirmBidLoop_no_match⟩
  rcases ConfirmBid_cases stub args r h with
    ⟨a0, ha, hg, e⟩ | ⟨a0, ha, hg, hp, e⟩ | ⟨_, _, arg2, _, _, _, _, e⟩
  · subst e
    refine ⟨rfl, rfl, Or.inl rfl, ?_⟩
    intro arg0 arg1 rest other hargs
    subst hargs
    simp only [List.head?_cons, Option.some.injEq] at ha
    subst ha
    simp [ConfirmBid, hg]
  · subst e
    refine ⟨rfl, rfl, Or.inr rfl, ?_⟩
    intro arg0 arg1 rest other hargs
    subst hargs
    simp only [List.head?_cons, Option.some.injEq] at ha
    subst ha
    simp [ConfirmBid, hg, hp]
  · subst e
    exfalso
    apply he
    dsimp only
    have hm : (SaveApplicationDetails stub
        { LoanApplication.zero with Status := (Atoi arg2).1 }).1.marshalable = true := by
      rw [SaveApplicationDetails_marshalable]
      rfl
    simp [jsonMarshal, hm]

/-- Witness of C10: the failing call on the stored worked example. -/
theorem confirmBid_checks_no_bidding_number_witness :
    ∃ r, ConfirmBid storedStub ["A100", "99999", "2"] = some r ∧ r.1.err ≠ none ∧
      r.2 = storedStub ∧ r.1.bytes = none := by
  have hsome : (ConfirmBid storedStub ["A100", "99999", "2"]).isSome = true := by decide
  obtain ⟨r, hr⟩ := Option.isSome_iff_exists.mp hsome
  have herr : (ConfirmBid storedStub ["A100", "99999", "2"]).map (fun r => r.1.err)
      = some (some (.New "Invalid application number")) := by decide
  rw [hr] at herr
  have hmsg : r.1.err = some (.New "Invalid application number") := Option.some.inj herr
  have he : r.1.err ≠ none := by
    rw [hmsg]
    exact Option.some_ne_none _
  have hmain := confirmBid_checks_no_bidding_number storedStub ["A100", "99999", "2"] r hr he
  exact ⟨r, hr, he, hmain.1.1, hmain.1.2.1⟩


/-! ### Confirmation as written -/

theorem ConfirmBid_present (stub : ChaincodeStub) (arg0 : String) (rest : List String)
    (b : Bytes) (hval : stub.state arg0 = some b) (hread : stub.getStateErr arg0 = false) :
    ConfirmBid stub (arg0 :: rest)
      = some ({ bytes := none, err := some (.New "Invalid application number") }, stub) := by
  simp [ConfirmBid, ChaincodeStub.GetState, hval, hread]

theorem ConfirmBid_error_unchanged (stub : ChaincodeStub) (args : List String)
    (r : Response × ChaincodeStub) (h : ConfirmBid stub args = some r)
    (he : r.1.err ≠ none) : r.2 = stub ∧ r.1.bytes = none := by
  rcases ConfirmBid_cases stub args r h with
    ⟨_, _, _, e⟩ | ⟨_, _, _, _, e⟩ | ⟨_, _, arg2, _, _, _, _, e⟩
  · subst e; exact ⟨rfl, rfl⟩
  · subst e; exact ⟨rfl, rfl⟩
  · subst e
    exfalso
    apply he
    dsimp only
    have hm : (SaveApplicationDetails stub
        { LoanApplication.zero with Status := (Atoi arg2).1 }).1.marshalable = true := by
      rw [SaveApplicationDetails_marshalable]
      rfl
    simp [jsonMarshal, hm]

/-- Counterexample to C11 as stated. Over the empty state, `ConfirmBid` for
A100 with the target status 7, which is neither BidAccepted nor BidRejected,
does not fail: it returns an application whose Status is 7, and writes it. -/
theorem confirmBid_accepts_target_status_7 :
    (ConfirmBid exampleStub ["A100", "11", "7"]).map (fun r => r.1)
      = some { bytes := some (.json confirmedStatus7Application), err := none } ∧
    confirmedStatus7Application.Status = 7 ∧
    (ConfirmBid exampleStub ["A100", "11", "7"]).map
        (fun r => (r.2.state "").map (fun b =>
          match b with
          | .json a => a.Status
          | .raw _ => 0))
      = some (some 7) := by
  refine ⟨by decide, by decide, by decide⟩

/-- Claim C11, as amended. `ConfirmBid` checks neither the status of the stored
application nor the target status. Whenever it returns an error, the stub is
as before the call, so no Status is overwritten. Whenever it returns without
error, the application it returns has the Status that `Atoi` reads from the
third argument, whatever that value is. -/
theorem confirmBid_checks_no_transition (stub : ChaincodeStub) (args : List String)
    (r : Response × ChaincodeStub) (h : ConfirmBid stub args = some r) :
    (r.1.err ≠ none → r.2 = stub) ∧
    (r.1.err = none → ∃ arg0 arg1 arg2 tl a, args = arg0 :: arg1 :: arg2 :: tl ∧
      r.1.bytes = some (.json a) ∧ a.Status = (Atoi arg2).1) := by
  refine ⟨fun he => (ConfirmBid_error_unchanged stub args r h he).1, ?_⟩
  intro hs
  rcases ConfirmBid_cases stub args r h with
    ⟨_, _, _, e⟩ | ⟨_, _, _, _, e⟩ | ⟨arg0, arg1, arg2, tl, hargs, _, _, e⟩
  · subst e; exact absurd hs (by simp)
  · subst e; exact absurd hs (by simp)
  · subst e
    dsimp only at hs ⊢
    exact ⟨arg0, arg1, arg2, tl, _, hargs, jsonMarshal_ok _ hs,
      (SaveApplicationDetails_fields _ _).2.1⟩

/-- Witness of C11: the call with target status 7 over the empty state. -/
theorem confirmBid_checks_no_transition_witness :
    ∃ r, ConfirmBid exampleStub ["A100", "11", "7"] = some r ∧ r.1.err = none ∧
      ∃ arg0 arg1 arg2 tl a, ["A100", "11", "7"] = arg0 :: arg1 :: arg2 :: tl ∧
        r.1.bytes = some (.json a) ∧ a.Status = (Atoi arg2).1 := by
  have hsome : (ConfirmBid exampleStub ["A100", "11", "7"]).isSome = true := by decide
  obtain ⟨r, hr⟩ := Option.isSome_iff_exists.mp hsome
  have herr : (ConfirmBid exampleStub ["A100", "11", "7"]).map (fun r => r.1.err)
      = some none := by decide
  rw [hr] at herr
  have hs : r.1.err = none := Option.some.inj herr
  exact ⟨r, hr, hs, (confirmBid_checks_no_transition exampleStub _ r hr).2 hs⟩

/-- Claim C12, at the failing input. The world state holds nothing under A100
(it is empty). `ConfirmBid` for A100, bidding number 11 and target status
BidAccepted returns no error but the encoding of an application: the zero
application with Status 2, with an empty application number and no quotation.
It writes that application under the empty key. -/
theorem confirmBid_absent_application_succeeds :
    exampleStub.state "A100" = none ∧
    (ConfirmBid exampleStub ["A100", "11", "2"]).map (fun r => r.1)
      = some { bytes := some (.json confirmedAbsentApplication), err := none } ∧
    confirmedAbsentApplication.ApplicationNumber = "" ∧
    confirmedAbsentApplication.Status = STATE_BID_ACCEPTED ∧
    confirmedAbsentApplication.Quotations = [] ∧
    (ConfirmBid exampleStub ["A100", "11", "2"]).map (fun r => (r.2.state "").isSome)
      = some true ∧
    exampleStub.state "" = none := by
  refine ⟨by decide, by decide, by decide, by decide, by decide, by decide, by decide⟩

/-- Claim C20. As the source is written, `ConfirmBid` on an application number
under which the world state holds a value returns the error "Invalid
application number", returns no bytes and leaves the stub as it was; and
`GetApplicationDetails` returns the zero application whatever the stub holds. -/
theorem confirmBid_as_written (stub : ChaincodeStub) (arg0 : String) (rest : List String)
    (b : Bytes) (hval : stub.state arg0 = some b) (hread : stub.getStateErr arg0 = false) :
    ConfirmBid stub (arg0 :: rest)
      = some ({ bytes := none, err := some (.New "Invalid application number") }, stub) ∧
    (∀ (other : ChaincodeStub) (applicationNumber : String),
      GetApplicationDetails other applicationNumber = LoanApplication.zero) ∧
    LoanApplication.zero.Quotations = [] ∧ LoanApplication.zero.Transactions = [] :=
  ⟨ConfirmBid_present stub arg0 rest b hval hread, GetApplicationDetails_zero, rfl, rfl⟩

/-- Witness of C20: the stored worked example. -/
theorem confirmBid_as_written_witness :
    (storedStub.state "A100" = some (.json storedApplication) ∧
      storedStub.getStateErr "A100" = false) ∧
    ConfirmBid storedStub ["A100", "11", "2"]
      = some ({ bytes := none, err := some (.New "Invalid application number") },
          storedStub) ∧
    GetApplicationDetails storedStub "A100" = LoanApplication.zero :=
  ⟨⟨by decide, by decide⟩,
   (confirmBid_as_written storedStub "A100" ["11", "2"] (.json storedApplication)
      (by decide) (by decide)).1,
   (confirmBid_as_written storedStub "A100" ["11", "2"] (.json storedApplication)
      (by decide) (by decide)).2.1 storedStub "A100"⟩


/-! ### What creation writes and returns -/

theorem GetTransactionMetadata_eq (stub : ChaincodeStub) (a : LoanApplication) :
    GetTransactionMetadata stub a = auditEntry stub a.Status := by
  unfold GetTransactionMetadata auditEntry
  cases h : stub.txTimestamp <;> rfl

theorem SaveApplicationDetails_put_ok (stub : ChaincodeStub) (a : LoanApplication)
    (hput : stub.putStateErr a.ApplicationNumber (jsonMarshal a).1 = false) :
    SaveApplicationDetails stub a =
      ({ a with Transactions := a.Transactions ++ [auditEntry stub a.Status] },
       { stub with
          state := fun k => if k = a.ApplicationNumber then (jsonMarshal a).1
            else stub.state k }) := by
  unfold SaveApplicationDetails ChaincodeStub.PutState
  simp only [hput, Bool.false_eq_true, if_false, if_true, GetTransactionMetadata_eq]
  rfl

theorem jsonMarshal_of_marshalable (a : LoanApplication) (h : a.marshalable = true) :
    jsonMarshal a = (some (.json a), none) := by
  simp [jsonMarshal, h]

theorem marshalable_of_ok (a : LoanApplication) (h : (jsonMarshal a).2 = none) :
    a.marshalable = true := by
  by_cases hm : a.marshalable = true
  · exact hm
  · simp [jsonMarshal, hm] at h

/-- A creation that returns without error and whose writes are taken: what it
returns, what it leaves under the application number, and that it touches no
other key. -/
theorem CreateLoanApplication_persisting (ParseFloat : String → Float64 × Bool)
    (stub : ChaincodeStub) (rng : RandSource) (args : List String)
    (r : Response × ChaincodeStub × RandSource)
    (h : CreateLoanApplication ParseFloat stub rng args = some r)
    (hs : r.1.err = none) (hput : ∀ k v, stub.putStateErr k v = false) :
    ∃ arg0 make model arg3 ssn arg5 arg6 arg7 tl,
      args = arg0 :: make :: model :: arg3 :: ssn :: arg5 :: arg6 :: arg7 :: tl ∧
      arg0 ≠ "" ∧
      r.1.bytes = some (.json
        (returnedByCreate ParseFloat stub rng arg0 make model arg3 ssn arg5 arg6 arg7)) ∧
      r.2.1.state arg0 = some (.json
        { returnedByCreate ParseFloat stub rng arg0 make model arg3 ssn arg5 arg6 arg7 with
          Transactions := [auditEntry stub STATE_APPLIED] }) ∧
      (∀ k, k ≠ arg0 → r.2.1.state k = stub.state k) := by
  rcases CreateLoanApplication_cases ParseFloat stub rng args r h with
    ⟨_, e⟩ | ⟨_, _, _, _, e⟩ |
    ⟨arg0, make, model, arg3, ssn, arg5, arg6, arg7, tl, hargs, h0, _, e⟩
  · subst e; exact absurd hs (by simp)
  · subst e; exact absurd hs (by simp)
  · refine ⟨arg0, make, model, arg3, ssn, arg5, arg6, arg7, tl, hargs, h0, ?_⟩
    subst e
    dsimp only at hs ⊢
    rw [SaveApplicationDetails_put_ok stub _ (hput _ _)] at hs ⊢
    dsimp only at hs ⊢
    rw [SaveApplicationDetails_put_ok _ _ (show ChaincodeStub.putStateErr
      { stub with
        state := fun k =>
          if k = (createdApplication ParseFloat arg0 make model arg3 ssn arg5 arg6
            arg7).ApplicationNumber then
            (jsonMarshal (createdApplication ParseFloat arg0 make model arg3 ssn arg5 arg6
              arg7)).1
          else stub.state k } _ _ = false from hput _ _)] at hs ⊢
    dsimp only at hs ⊢
    have hm := marshalable_of_ok _ hs
    refine ⟨jsonMarshal_ok _ hs, ?_, ?_⟩
    · have hm2 : LoanApplication.marshalable
          { returnedByCreate ParseFloat stub rng arg0 make model arg3 ssn arg5 arg6 arg7 with
            Transactions := [auditEntry stub STATE_APPLIED] } = true := hm
      have e2 := jsonMarshal_of_marshalable _ hm2
      simp only [createdApplication, if_true]
      exact congrArg Prod.fst e2
    · intro k hk
      simp [createdApplication, hk]


/-! ### Creation: duplicates and unparsable numbers -/

theorem CreateLoanApplication_present (ParseFloat : String → Float64 × Bool)
    (stub : ChaincodeStub) (rng : RandSource) (arg0 : String) (rest : List String)
    (b : Bytes) (hval : stub.state arg0 = some b) (hread : stub.getStateErr arg0 = false)
    (h0 : arg0 ≠ "") :
    CreateLoanApplication ParseFloat stub rng (arg0 :: rest)
      = some ({ bytes := none, err := some (.New "Application already exist") }, stub, rng) := by
  simp [CreateLoanApplication, ChaincodeStub.GetState, hval, hread, h0]

theorem CreateLoanApplication_empty_number (ParseFloat : String → Float64 × Bool)
    (stub : ChaincodeStub) (rng : RandSource) (rest : List String) :
    CreateLoanApplication ParseFloat stub rng ("" :: rest)
      = some ({ bytes := none, err := some (.New "Invalid application") }, stub, rng) := by
  simp [CreateLoanApplication]

/-- Claim C13. When the world state holds a value under the application
number, `CreateLoanApplication` returns an error and no bytes and leaves the
stub and the random source as they were; the error is "Application already
exist" for every non-empty application number. In particular, after a creation
that returned without error and whose writes were taken, creating with the same
arguments again is refused with that error. -/
theorem create_duplicate_is_refused (ParseFloat : String → Float64 × Bool) :
    (∀ (stub : ChaincodeStub) (rng : RandSource) (arg0 : String) (rest : List String)
        (b : Bytes), stub.state arg0 = some b → stub.getStateErr arg0 = false →
      ∃ msg, CreateLoanApplication ParseFloat stub rng (arg0 :: rest)
          = some ({ bytes := none, err := some (.New msg) }, stub, rng) ∧
        (arg0 ≠ "" → msg = "Application already exist")) ∧
    (∀ (stub : ChaincodeStub) (rng : RandSource) (args : List String)
        (r : Response × ChaincodeStub × RandSource) (later : ChaincodeStub)
        (rng2 : RandSource),
      CreateLoanApplication ParseFloat stub rng args = some r → r.1.err = none →
      (∀ k v, stub.putStateErr k v = false) →
      later.state = r.2.1.state → (∀ k, later.getStateErr k = false) →
      CreateLoanApplication ParseFloat later rng2 args
        = some ({ bytes := none, err := some (.New "Application already exist") },
            later, rng2)) := by
  constructor
  · intro stub rng arg0 rest b hval hread
    by_cases h0 : arg0 = ""
    · subst h0
      exact ⟨_, CreateLoanApplication_empty_number ParseFloat stub rng rest,
        fun h => absurd rfl h⟩
    · exact ⟨_, CreateLoanApplication_present ParseFloat stub rng arg0 rest b hval hread h0,
        fun _ => rfl⟩
  · intro stub rng args r later rng2 h hs hput hstate hread
    obtain ⟨arg0, make, model, arg3, ssn, arg5, arg6, arg7, tl, hargs, h0, _, hst, _⟩ :=
      CreateLoanApplication_persisting ParseFloat stub rng args r h hs hput
    subst hargs
    exact CreateLoanApplication_present ParseFloat later rng2 arg0 _ _
      (by rw [hstate]; exact hst) (hread arg0) h0

/-- Witness of C13: creating the worked example over the state that its first
creation left is refused. -/
theorem create_duplicate_is_refused_witness :
    storedStub.state "A100" = some (.json storedApplication) ∧
    ∃ msg, CreateLoanApplication parseFloatNumeral storedStub exampleRand exampleArgs
        = some ({ bytes := none, err := some (.New msg) }, storedStub, exampleRand) ∧
      ("A100" ≠ "" → msg = "Application already exist") :=
  ⟨by decide,
   (create_duplicate_is_refused parseFloatNumeral).1 storedStub exampleRand "A100"
      ["Toyota", "Corolla", "20000", "1234567", "35", "4000", "650"]
      (.json storedApplication) (by decide) (by decide)⟩

/-- Claim C14, at the failing inputs. With the text "abc" as age, which `Atoi`
refuses, `CreateLoanApplication` over the empty state returns no error: it
takes the age to be 0, returns the application in status QuotationsReceived
with four quotations rejected for the age, and writes under A100. With the
empty text as credit score it does the same with a credit score of 0. -/
theorem create_takes_unparsable_numbers_as_zero :
    (Atoi "abc" = (0, true) ∧ Atoi "" = (0, true)) ∧
    ((CreateLoanApplication parseFloatNumeral exampleStub exampleRand unparsableAgeArgs).map
        (fun r => r.1) = some { bytes := some (.json unparsableAgeApplication), err := none } ∧
      unparsableAgeApplication.Age = 0 ∧
      unparsableAgeApplication.Status = STATE_QUOTATIONS_RECEIVED ∧
      unparsableAgeApplication.Quotations.map (fun q => q.RejectionReason)
        = ["Not meeting age requirements", "Not meeting age requirements",
           "Not meeting age requirements", "Not meeting age requirements"] ∧
      (CreateLoanApplication parseFloatNumeral exampleStub exampleRand unparsableAgeArgs).map
        (fun r => (r.2.1.state "A100").isSome) = some true) ∧
    ((CreateLoanApplication parseFloatNumeral exampleStub exampleRand emptyScoreArgs).map
        (fun r => r.1) = some { bytes := some (.json emptyScoreApplication), err := none } ∧
      emptyScoreApplication.CreditScore = 0 ∧
      emptyScoreApplication.Status = STATE_QUOTATIONS_RECEIVED ∧
      emptyScoreApplication.Quotations.map (fun q => q.RejectionReason)
        = ["Not meeting credit score requirements", "Not meeting credit score requirements",
           "Not meeting credit score requirements", "Not meeting credit score requirements"] ∧
      (CreateLoanApplication parseFloatNumeral exampleStub exampleRand emptyScoreArgs).map
        (fun r => (r.2.1.state "A100").isSome) = some true) := by
  refine ⟨⟨by decide, by decide⟩, ⟨by decide, by decide, by decide, by decide, by decide⟩,
    ⟨by decide, by decide, by decide, by decide, by decide⟩⟩


/-! ### Creation: lender order and lender identity -/

/-- Counterexample to C15 as stated. Creating the worked example with a credit
score of 200 succeeds; its four quotations are rejections, and their lender
identities are 0, 0, 0, 0, not 1, 2, 3, 4. -/
theorem create_rejected_quotes_carry_no_lender_id :
    (CreateLoanApplication parseFloatNumeral exampleStub exampleRand rejectedArgs).map
        (fun r => r.1) = some { bytes := some (.json rejectedApplication), err := none } ∧
    rejectedApplication.Quotations.map (fun q => q.ApplicationAcceptStatus) = [0, 0, 0, 0] ∧
    rejectedApplication.Quotations.map (fun q => q.LenderId) = [0, 0, 0, 0] := by
  refine ⟨by decide, by decide, by decide⟩

/-- Claim C15, as amended. The quotations of a successfully created application
are the quotes of lenders 1, 2, 3, 4 in this order, all for the same
parameters. When the lenders accept, the lender identities are 1, 2,
3, 4; when they reject, the lender identities are 0, 0, 0, 0. -/
theorem create_quotations_in_lender_order (ParseFloat : String → Float64 × Bool)
    (stub : ChaincodeStub) (rng : RandSource) (args : List String)
    (r : Response × ChaincodeStub × RandSource)
    (h : CreateLoanApplication ParseFloat stub rng args = some r)
    (hs : r.1.err = none) :
    ∃ (a : LoanApplication) (p : EvaluationParams),
      r.1.bytes = some (.json a) ∧
      a.Quotations =
        [(GetQuoteFromLender1 rng p).1,
         (GetQuoteFromLender2 (GetQuoteFromLender1 rng p).2 p).1,
         (GetQuoteFromLender3 (GetQuoteFromLender2 (GetQuoteFromLender1 rng p).2 p).2 p).1,
         (GetQuoteFromLender4 (GetQuoteFromLender3
           (GetQuoteFromLender2 (GetQuoteFromLender1 rng p).2 p).2 p).2 p).1] ∧
      (((∀ q ∈ a.Quotations, q.ApplicationAcceptStatus = LENDER_ACCEPT_APPLICATION) ∧
          a.Quotations.map (fun q => q.LenderId) = [1, 2, 3, 4]) ∨
       ((∀ q ∈ a.Quotations, q.ApplicationAcceptStatus = LENDER_REJECT_APPLICATION) ∧
          a.Quotations.map (fun q => q.LenderId) = [0, 0, 0, 0])) := by
  obtain ⟨a, p, hb, _, hq⟩ := CreateLoanApplication_success ParseFloat stub rng args r h hs
  refine ⟨a, p, hb, hq, ?_⟩
  rw [hq]
  simp only [GetQuoteFromLender1_eq, GetQuoteFromLender2_eq, GetQuoteFromLender3_eq,
    GetQuoteFromLender4_eq]
  by_cases he : Eligible p
  · left
    simp only [lenderRule_of_eligible _ _ _ p he]
    refine ⟨?_, rfl⟩
    intro q hq
    simp only [List.mem_cons, List.mem_singleton, List.not_mem_nil, or_false] at hq
    rcases hq with rfl | rfl | rfl | rfl <;> rfl
  · right
    simp only [(lenderRule_of_not_eligible _ _ _ p he).1]
    refine ⟨?_, ?_⟩
    · intro q hq
      simp only [List.mem_cons, List.mem_singleton, List.not_mem_nil, or_false] at hq
      rcases hq with rfl | rfl | rfl | rfl <;>
        exact (lenderRule_of_not_eligible _ _ _ p he).2.1
    · simp only [List.map, (lenderRule_of_not_eligible _ _ _ p he).2.2.2.1]

/-- Witness of C15: the worked example, created successfully. -/
theorem create_quotations_in_lender_order_witness :
    ∃ r, CreateLoanApplication parseFloatNumeral exampleStub exampleRand exampleArgs = some r ∧
      r.1.err = none ∧
      ∃ (a : LoanApplication) (p : EvaluationParams),
        r.1.bytes = some (.json a) ∧
        a.Quotations =
          [(GetQuoteFromLender1 exampleRand p).1,
           (GetQuoteFromLender2 (GetQuoteFromLender1 exampleRand p).2 p).1,
           (GetQuoteFromLender3
             (GetQuoteFromLender2 (GetQuoteFromLender1 exampleRand p).2 p).2 p).1,
           (GetQuoteFromLender4 (GetQuoteFromLender3
             (GetQuoteFromLender2 (GetQuoteFromLender1 exampleRand p).2 p).2 p).2 p).1] ∧
        (((∀ q ∈ a.Quotations, q.ApplicationAcceptStatus = LENDER_ACCEPT_APPLICATION) ∧
            a.Quotations.map (fun q => q.LenderId) = [1, 2, 3, 4]) ∨
         ((∀ q ∈ a.Quotations, q.ApplicationAcceptStatus = LENDER_REJECT_APPLICATION) ∧
            a.Quotations.map (fun q => q.LenderId) = [0, 0, 0, 0])) := by
  have hsome : (CreateLoanApplication parseFloatNumeral exampleStub exampleRand
      exampleArgs).isSome = true := by decide
  obtain ⟨r, hr⟩ := Option.isSome_iff_exists.mp hsome
  have herr : (CreateLoanApplication parseFloatNumeral exampleStub exampleRand
      exampleArgs).map (fun r => r.1.err) = some none := by decide
  rw [hr] at herr
  have hs : r.1.err = none := Option.some.inj herr
  exact ⟨r, hr, hs,
    create_quotations_in_lender_order parseFloatNumeral exampleStub exampleRand exampleArgs
      r hr hs⟩

/-! ### Creation: replay -/

/-- Claim C16, at the failing input. The worked example is created twice with
the same arguments over the same stub (same world state, transaction id,
timestamp and caller metadata); the second time the random source stands where
the first creation left it. Both calls succeed; the first returns the bidding
numbers 11, 22, 33, 44 and the second 55, 66, 77, 88, so the returned
applications differ. -/
theorem create_replay_draws_other_numbers :
    (CreateLoanApplication parseFloatNumeral exampleStub exampleRand exampleArgs).map
        (fun r => r.1) = some { bytes := some (.json returnedApplication), err := none } ∧
    (CreateLoanApplication parseFloatNumeral exampleStub advancedRand exampleArgs).map
        (fun r => r.1) = some { bytes := some (.json replayedApplication), err := none } ∧
    returnedApplication.Quotations.map (fun q => q.BiddingNumber) = [11, 22, 33, 44] ∧
    replayedApplication.Quotations.map (fun q => q.BiddingNumber) = [55, 66, 77, 88] ∧
    returnedApplication ≠ replayedApplication := by
  refine ⟨by decide, by decide, by decide, by decide, by decide⟩


/-! ### The audit trail -/

/-- Claim C17. When the put succeeds, `SaveApplicationDetails` returns the
application with exactly one entry appended at the end of Transactions; the
entry carries the status of the application, the transaction id, the timestamp
(empty if the peer reports none) and the caller metadata of the stub; every
other field is as it was. Consequently a `CreateLoanApplication` that returns
without error and whose two puts succeed returns exactly two entries, with
states Applied and QuotationsReceived, in this order. -/
theorem save_appends_one_audit_entry :
    (∀ (stub : ChaincodeStub) (a : LoanApplication),
      stub.putStateErr a.ApplicationNumber (jsonMarshal a).1 = false →
      (SaveApplicationDetails stub a).1 =
        { a with
          Transactions := a.Transactions ++
            [{ ApplicationState := a.Status, TransactionId := stub.txID,
               TransactionTimestamp := stub.txTimestamp.getD "",
               CallerMetadata := stub.callerMetadata }] }) ∧
    (∀ (ParseFloat : String → Float64 × Bool) (stub : ChaincodeStub) (rng : RandSource)
        (args : List String) (r : Response × ChaincodeStub × RandSource),
      CreateLoanApplication ParseFloat stub rng args = some r → r.1.err = none →
      (∀ k v, stub.putStateErr k v = false) →
      ∃ a, r.1.bytes = some (.json a) ∧
        a.Transactions =
          [{ ApplicationState := STATE_APPLIED, TransactionId := stub.txID,
             TransactionTimestamp := stub.txTimestamp.getD "",
             CallerMetadata := stub.callerMetadata },
           { ApplicationState := STATE_QUOTATIONS_RECEIVED, TransactionId := stub.txID,
             TransactionTimestamp := stub.txTimestamp.getD "",
             CallerMetadata := stub.callerMetadata }]) := by
  constructor
  · intro stub a hput
    rw [SaveApplicationDetails_put_ok stub a hput]
    rfl
  · intro ParseFloat stub rng args r h hs hput
    obtain ⟨arg0, make, model, arg3, ssn, arg5, arg6, arg7, tl, _, _, hb, _, _⟩ :=
      CreateLoanApplication_persisting ParseFloat stub rng args r h hs hput
    exact ⟨_, hb, rfl⟩

/-- Witness of C17: the worked example; its two writes are taken and it returns
the two entries, with states 0 and 1. -/
theorem save_appends_one_audit_entry_witness :
    (CreateLoanApplication parseFloatNumeral exampleStub exampleRand exampleArgs).map
        (fun r => r.1) = some { bytes := some (.json returnedApplication), err := none } ∧
    (∀ k v, exampleStub.putStateErr k v = false) ∧
    returnedApplication.Transactions.map (fun t => t.ApplicationState) = [0, 1] ∧
    ∃ r, CreateLoanApplication parseFloatNumeral exampleStub exampleRand exampleArgs = some r ∧
      ∃ a, r.1.bytes = some (.json a) ∧
        a.Transactions =
          [{ ApplicationState := STATE_APPLIED, TransactionId := exampleStub.txID,
             TransactionTimestamp := exampleStub.txTimestamp.getD "",
             CallerMetadata := exampleStub.callerMetadata },
           { ApplicationState := STATE_QUOTATIONS_RECEIVED, TransactionId := exampleStub.txID,
             TransactionTimestamp := exampleStub.txTimestamp.getD "",
             CallerMetadata := exampleStub.callerMetadata }] := by
  have hsome : (CreateLoanApplication parseFloatNumeral exampleStub exampleRand
      exampleArgs).isSome = true := by decide
  obtain ⟨r, hr⟩ := Option.isSome_iff_exists.mp hsome
  have herr : (CreateLoanApplication parseFloatNumeral exampleStub exampleRand
      exampleArgs).map (fun r => r.1.err) = some none := by decide
  rw [hr] at herr
  have hs : r.1.err = none := Option.some.inj herr
  exact ⟨by decide, fun _ _ => rfl, by decide, r, hr,
    save_appends_one_audit_entry.2 parseFloatNumeral exampleStub exampleRand exampleArgs r hr hs
      (fun _ _ => rfl)⟩

/-! ### Writes and failures -/

theorem CreateLoanApplication_check_error_unchanged (ParseFloat : String → Float64 × Bool)
    (stub : ChaincodeStub) (rng : RandSource) (args : List String)
    (r : Response × ChaincodeStub × RandSource) (msg : String)
    (h : CreateLoanApplication ParseFloat stub rng args = some r)
    (he : r.1.err = some (.New msg)) : r.2.1 = stub ∧ r.2.2 = rng ∧ r.1.bytes = none := by
  rcases CreateLoanApplication_cases ParseFloat stub rng args r h with
    ⟨_, e⟩ | ⟨_, _, _, _, e⟩ | ⟨_, _, _, _, _, _, _, _, _, _, _, _, e⟩
  · subst e; exact ⟨rfl, rfl, rfl⟩
  · subst e; exact ⟨rfl, rfl, rfl⟩
  · subst e
    exfalso
    dsimp only at he
    revert he
    unfold jsonMarshal
    split_ifs <;> simp

/-- Counterexample to C18 as stated. Creating the worked example over the
empty state succeeds, with both writes taken; the application it returns has
two Transactions entries, the application left under A100 has one: the
returned application is not the persisted one. -/
theorem create_returned_is_not_the_persisted :
    (CreateLoanApplication parseFloatNumeral exampleStub exampleRand exampleArgs).map
        (fun r => r.1) = some { bytes := some (.json returnedApplication), err := none } ∧
    (CreateLoanApplication parseFloatNumeral exampleStub exampleRand exampleArgs).map
        (fun r => r.2.1.state "A100") = some (some (.json storedApplication)) ∧
    returnedApplication.Transactions.length = 2 ∧
    storedApplication.Transactions.length = 1 ∧
    returnedApplication ≠ storedApplication := by
  refine ⟨by decide, by decide, by decide, by decide, by decide⟩

/-- Claim C18, as amended. If `ConfirmBid` returns an error, or
`CreateLoanApplication` returns the error of one of its own checks ("Invalid
application", "Application already exist"), the stub after the call is the stub
before it. If `CreateLoanApplication` returns without error and its puts
succeed, the value persisted under the application number is the returned
application without the last entry of its Transactions. -/
theorem check_failures_write_nothing :
    (∀ (stub : ChaincodeStub) (args : List String) (r : Response × ChaincodeStub),
      ConfirmBid stub args = some r → r.1.err ≠ none → r.2 = stub) ∧
    (∀ (ParseFloat : String → Float64 × Bool) (stub : ChaincodeStub) (rng : RandSource)
        (args : List String) (r : Response × ChaincodeStub × RandSource) (msg : String),
      CreateLoanApplication ParseFloat stub rng args = some r →
      r.1.err = some (.New msg) → r.2.1 = stub) ∧
    (∀ (ParseFloat : String → Float64 × Bool) (stub : ChaincodeStub) (rng : RandSource)
        (args : List String) (r : Response × ChaincodeStub × RandSource),
      CreateLoanApplication ParseFloat stub rng args = some r → r.1.err = none →
      (∀ k v, stub.putStateErr k v = false) →
      ∃ a, r.1.bytes = some (.json a) ∧
        r.2.1.state a.ApplicationNumber
          = some (.json { a with Transactions := a.Transactions.dropLast })) := by
  refine ⟨?_, ?_, ?_⟩
  · intro stub args r h he
    exact (ConfirmBid_error_unchanged stub args r h he).1
  · intro ParseFloat stub rng args r msg h he
    exact (CreateLoanApplication_check_error_unchanged ParseFloat stub rng args r msg h he).1
  · intro ParseFloat stub rng args r h hs hput
    obtain ⟨arg0, make, model, arg3, ssn, arg5, arg6, arg7, tl, _, _, hb, hst, _⟩ :=
      CreateLoanApplication_persisting ParseFloat stub rng args r h hs hput
    exact ⟨_, hb, hst⟩

/-- Witness of C18: the worked example; what is left under A100 is the returned
application without its last Transactions entry. -/
theorem check_failures_write_nothing_witness :
    storedApplication
      = { returnedApplication with
          Transactions := returnedApplication.Transactions.dropLast } ∧
    ∃ r, CreateLoanApplication parseFloatNumeral exampleStub exampleRand exampleArgs = some r ∧
      ∃ a, r.1.bytes = some (.json a) ∧
        r.2.1.state a.ApplicationNumber
          = some (.json { a with Transactions := a.Transactions.dropLast }) := by
  have hsome : (CreateLoanApplication parseFloatNumeral exampleStub exampleRand
      exampleArgs).isSome = true := by decide
  obtain ⟨r, hr⟩ := Option.isSome_iff_exists.mp hsome
  have herr : (CreateLoanApplication parseFloatNumeral exampleStub exampleRand
      exampleArgs).map (fun r => r.1.err) = some none := by decide
  rw [hr] at herr
  have hs : r.1.err = none := Option.some.inj herr
  exact ⟨by decide, r, hr,
    check_failures_write_nothing.2.2 parseFloatNumeral exampleStub exampleRand exampleArgs r
      hr hs (fun _ _ => rfl)⟩

/-! ### One rule for the four lenders -/

theorem lenderRule_eq_parameterizedRule (lenderId : Int) (interestType : String)
    (rng : RandSource) (p : EvaluationParams) :
    (lenderRule lenderId interestType rng p).1
      = parameterizedRule lenderId interestType p (GenerateBiddingNumber rng).1 := by
  unfold parameterizedRule
  rcases lenderRule_cases lenderId interestType rng p with
    ⟨h1, e⟩ | ⟨h1, h2, e⟩ | ⟨h1, h2, h3, e⟩ | ⟨h1, h2, h3, h4, e⟩ | ⟨h1, h2, h3, h4, e⟩
  · rw [e, if_pos h1]
  · rw [e, if_neg h1, if_pos h2]
  · rw [e, if_neg h1, if_neg h2, if_pos h3]
  · rw [e, if_neg h1, if_neg h2, if_neg (not_not.mpr h3), if_pos h4]
  · rw [e, if_neg h1, if_neg h2, if_neg (not_not.mpr h3), if_neg (by simp [h4])]

theorem parameterizedRule_agree (i j : Int) (s t : String) (p : EvaluationParams)
    (n : Int) : AgreeExceptLender (parameterizedRule i s p n) (parameterizedRule j t p n) := by
  unfold parameterizedRule
  split_ifs <;> exact ⟨rfl, rfl, rfl, rfl, rfl, rfl, rfl⟩

/-- Claim C19. The four lender functions are instances of one rule with the
lender identity, the interest type and the drawn bidding number as arguments:
lender 1 is the rule at (1, simple), lender 2 at (2, floating), lender 3 at
(3, simple), lender 4 at (4, floating). For the same parameters and the same
draw, the quotes of any two lenders agree on every field other than LenderId
and InterestType. -/
theorem lenders_are_instances_of_one_rule (rng : RandSource) (p : EvaluationParams) :
    ((GetQuoteFromLender1 rng p).1
        = parameterizedRule 1 "simple" p (GenerateBiddingNumber rng).1 ∧
      (GetQuoteFromLender2 rng p).1
        = parameterizedRule 2 "floating" p (GenerateBiddingNumber rng).1 ∧
      (GetQuoteFromLender3 rng p).1
        = parameterizedRule 3 "simple" p (GenerateBiddingNumber rng).1 ∧
      (GetQuoteFromLender4 rng p).1
        = parameterizedRule 4 "floating" p (GenerateBiddingNumber rng).1) ∧
    (∀ q ∈ [(GetQuoteFromLender1 rng p).1, (GetQuoteFromLender2 rng p).1,
              (GetQuoteFromLender3 rng p).1, (GetQuoteFromLender4 rng p).1],
      ∀ q2 ∈ [(GetQuoteFromLender1 rng p).1, (GetQuoteFromLender2 rng p).1,
                (GetQuoteFromLender3 rng p).1, (GetQuoteFromLender4 rng p).1],
        AgreeExceptLender q q2) := by
  have e1 := lenderRule_eq_parameterizedRule 1 "simple" rng p
  have e2 := lenderRule_eq_parameterizedRule 2 "floating" rng p
  have e3 := lenderRule_eq_parameterizedRule 3 "simple" rng p
  have e4 := lenderRule_eq_parameterizedRule 4 "floating" rng p
  rw [← GetQuoteFromLender1_eq] at e1
  rw [← GetQuoteFromLender2_eq] at e2
  rw [← GetQuoteFromLender3_eq] at e3
  rw [← GetQuoteFromLender4_eq] at e4
  refine ⟨⟨e1, e2, e3, e4⟩, ?_⟩
  rw [e1, e2, e3, e4]
  intro q hq q2 hq2
  simp only [List.mem_cons, List.mem_singleton, List.not_mem_nil, or_false] at hq hq2
  rcases hq with rfl | rfl | rfl | rfl <;> rcases hq2 with rfl | rfl | rfl | rfl <;>
    exact parameterizedRule_agree _ _ _ _ _ _


/-! ### The winner-marking loop -/

theorem markedFrom_step (biddingNumber bidStatus : Int) (q : BiddingDetails) :
    MarkedFrom biddingNumber bidStatus q
      (if q.BiddingNumber = biddingNumber ∧ bidStatus = STATE_BID_ACCEPTED then
        { q with IsWinningBid := true }
      else q) := by
  by_cases hc : q.BiddingNumber = biddingNumber ∧ bidStatus = STATE_BID_ACCEPTED
  · rw [if_pos hc]
    exact ⟨rfl, rfl, rfl, rfl, rfl, rfl, rfl, rfl, fun _ => Or.inr hc, fun _ => rfl⟩
  · rw [if_neg hc]
    refine ⟨rfl, rfl, rfl, rfl, rfl, rfl, rfl, rfl, fun h => Or.inl h, ?_⟩
    rintro (h | h)
    · exact h
    · exact absurd h hc

theorem confirmBidLoop_other_status (biddingNumber bidStatus : Int)
    (qs : List BiddingDetails) (h : bidStatus ≠ STATE_BID_ACCEPTED) :
    confirmBidLoop biddingNumber bidStatus qs = qs := by
  induction qs with
  | nil => rfl
  | cons q qs ih =>
    unfold confirmBidLoop
    rw [if_neg (fun hc => h hc.2), ih]

/-- Claim C21. The loop of `ConfirmBid` keeps the length and the order of the
quotations and every field other than IsWinningBid. After it, a quotation is
marked as winning exactly when it was marked before, or it carries the bidding
number and the target status is BidAccepted: every quotation with that number
is marked, no other is, and no mark is removed. With any other target status
the quotations are as they were. -/
theorem confirmBidLoop_marks_matching (biddingNumber bidStatus : Int)
    (qs : List BiddingDetails) :
    List.Forall₂ (MarkedFrom biddingNumber bidStatus) qs
      (confirmBidLoop biddingNumber bidStatus qs) ∧
    (confirmBidLoop biddingNumber bidStatus qs).length = qs.length ∧
    (bidStatus ≠ STATE_BID_ACCEPTED → confirmBidLoop biddingNumber bidStatus qs = qs) := by
  refine ⟨?_, ?_, confirmBidLoop_other_status biddingNumber bidStatus qs⟩
  · induction qs with
    | nil => exact List.Forall₂.nil
    | cons q qs ih =>
      unfold confirmBidLoop
      exact List.Forall₂.cons (markedFrom_step biddingNumber bidStatus q) ih
  · induction qs with
    | nil => rfl
    | cons q qs ih =>
      unfold confirmBidLoop
      rw [List.length_cons, List.length_cons, ih]

/-- Witness of C21: three quotations numbered 11, 22, 11, the second already
winning. Target BidAccepted with number 11 marks the first and the third and
keeps the second; target BidRejected, or a number that none carries, changes
nothing. -/
theorem confirmBidLoop_marks_matching_witness :
    (confirmBidLoop 11 STATE_BID_ACCEPTED sharedNumberQuotations).map
        (fun q => (q.BiddingNumber, q.LenderId, q.IsWinningBid))
      = [(11, 1, true), (22, 2, true), (11, 3, true)] ∧
    confirmBidLoop 11 STATE_BID_REJECTED sharedNumberQuotations = sharedNumberQuotations ∧
    confirmBidLoop 33 STATE_BID_ACCEPTED sharedNumberQuotations = sharedNumberQuotations ∧
    List.Forall₂ (MarkedFrom 11 STATE_BID_ACCEPTED) sharedNumberQuotations
      (confirmBidLoop 11 STATE_BID_ACCEPTED sharedNumberQuotations) :=
  ⟨by decide,
   (confirmBidLoop_marks_matching 11 STATE_BID_REJECTED sharedNumberQuotations).2.2
     (by decide),
   by decide,
   (confirmBidLoop_marks_matching 11 STATE_BID_ACCEPTED sharedNumberQuotations).1⟩

/-! ### The persisted record lags the returned one -/

/-- Claim C22. `SaveApplicationDetails` encodes the application before it
appends the audit entry of the write. So, for a `CreateLoanApplication` that
returns without error and whose puts succeed, the application left under the
application number has status QuotationsReceived, 4 quotations and one
Transactions entry, of state Applied, while the returned application has two
entries, of states Applied and QuotationsReceived; the two applications agree
on every field other than Transactions. -/
theorem persisted_lags_returned (ParseFloat : String → Float64 × Bool)
    (stub : ChaincodeStub) (rng : RandSource) (args : List String)
    (r : Response × ChaincodeStub × RandSource)
    (h : CreateLoanApplication ParseFloat stub rng args = some r)
    (hs : r.1.err = none) (hput : ∀ k v, stub.putStateErr k v = false) :
    (∀ a : LoanApplication,
      (SaveApplicationDetails stub a).2.state a.ApplicationNumber = (jsonMarshal a).1 ∧
      (SaveApplicationDetails stub a).1.Transactions
        = a.Transactions ++ [GetTransactionMetadata stub a]) ∧
    (∃ returned stored : LoanApplication,
      r.1.bytes = some (.json returned) ∧
      r.2.1.state returned.ApplicationNumber = some (.json stored) ∧
      stored.Status = STATE_QUOTATIONS_RECEIVED ∧
      stored.Quotations.length = 4 ∧
      stored.Transactions.map (fun t => t.ApplicationState) = [STATE_APPLIED] ∧
      returned.Transactions.map (fun t => t.ApplicationState)
        = [STATE_APPLIED, STATE_QUOTATIONS_RECEIVED] ∧
      stored = { returned with Transactions := stored.Transactions }) := by
  constructor
  · intro a
    rw [SaveApplicationDetails_put_ok stub a (hput _ _), GetTransactionMetadata_eq]
    exact ⟨by simp, rfl⟩
  · obtain ⟨arg0, make, model, arg3, ssn, arg5, arg6, arg7, tl, _, _, hb, hst, _⟩ :=
      CreateLoanApplication_persisting ParseFloat stub rng args r h hs hput
    exact ⟨_, _, hb, hst, rfl, rfl, rfl, rfl, rfl⟩

/-- Witness of C22: the worked example, created over the empty state. -/
theorem persisted_lags_returned_witness :
    ∃ r, CreateLoanApplication parseFloatNumeral exampleStub exampleRand exampleArgs = some r ∧
      r.1.err = none ∧ (∀ k v, exampleStub.putStateErr k v = false) ∧
      ∃ returned stored : LoanApplication,
        r.1.bytes = some (.json returned) ∧
        r.2.1.state returned.ApplicationNumber = some (.json stored) ∧
        stored.Status = STATE_QUOTATIONS_RECEIVED ∧
        stored.Quotations.length = 4 ∧
        stored.Transactions.map (fun t => t.ApplicationState) = [STATE_APPLIED] ∧
        returned.Transactions.map (fun t => t.ApplicationState)
          = [STATE_APPLIED, STATE_QUOTATIONS_RECEIVED] ∧
        stored = { returned with Transactions := stored.Transactions } := by
  have hsome : (CreateLoanApplication parseFloatNumeral exampleStub exampleRand
      exampleArgs).isSome = true := by decide
  obtain ⟨r, hr⟩ := Option.isSome_iff_exists.mp hsome
  have herr : (CreateLoanApplication parseFloatNumeral exampleStub exampleRand
      exampleArgs).map (fun r => r.1.err) = some none := by decide
  rw [hr] at herr
  have hs : r.1.err = none := Option.some.inj herr
  exact ⟨r, hr, hs, fun _ _ => rfl,
    (persisted_lags_returned parseFloatNumeral exampleStub exampleRand exampleArgs r hr hs
      (fun _ _ => rfl)).2⟩

end SmartLending
